import Mathlib

/-!
Shallow embedding of the Alba365 Hub edge-sync server (TypeScript sources under
src/): the SQLite-backed store helpers (db/index.ts), the push engine
(sync/push-sync.ts), the pull engine (the PullSyncEngine source file), the
sales route (api/sales.ts), the user admin route (api/users.ts), the kitchen
order bump route, and the PIN rate limiter of the auth route.

Conventions of the embedding:
* SQLite tables are Lean lists of row structures inside one `HubDb` state.
* better-sqlite3 `transaction(fn)` is a combinator over `Except`: a thrown
  error rolls the state back to the input state.
* JSON (de)serialization of opaque payloads is abstracted: outbox payloads are
  strings, and `JSON.parse` success is a `parseOk : String → Bool` parameter.
* bcrypt comparison is external crypto and is abstracted by the
  `matchedUser : Option String` parameter of the auth model.
* Wall-clock `Date.now()` values are `Nat` parameters (milliseconds).
* Monetary amounts are `Int`: no claim below depends on decimal arithmetic.
-/

namespace Alba365

/-! ## Cloud client (src/src/sync/cloud-client.ts) -/

/-- Uniform response envelope of the cloud HTTP client: `ok` is true iff the
HTTP status is 2xx (the semantics of `res.ok` of fetch); a network failure or
timeout yields `ok = false`, `status = 0` and an error message. -/
structure CloudResponse where
  ok : Bool
  status : Nat
  error : Option String
deriving DecidableEq, Repr

/-- Response of a completed HTTP exchange with the given status code, as the
cloud client reports it (`ok := res.ok`, which fetch defines as 2xx). -/
def httpResponse (status : Nat) : CloudResponse :=
  { ok := decide (200 ≤ status ∧ status < 300), status := status, error := none }

/-! ## Outbox rows (db/schema.ts, table outbox_queue) -/

/-- Status values the hub writes into outbox_queue.status. -/
inductive OutboxStatus where
  | PENDING
  | PROCESSING
  | SYNCED
  | DEAD_LETTER
deriving DecidableEq, Repr

/-- One row of the outbox_queue table (schema.ts lines 97-112). -/
structure OutboxItem where
  id : Nat
  entity_type : String
  entity_id : String
  action : String
  payload : String
  correlation_id : Option String
  priority : Int
  attempts : Nat
  max_attempts : Nat
  status : OutboxStatus
  error : Option String
deriving DecidableEq, Repr

/-- Fresh outbox row as an INSERT with the schema defaults produces it:
status PENDING, attempts 0, max_attempts 5, error NULL. -/
def newOutboxRow (id : Nat) (entityType entityId act payload : String)
    (corr : Option String) (priority : Int) : OutboxItem :=
  { id := id, entity_type := entityType, entity_id := entityId, action := act,
    payload := payload, correlation_id := corr, priority := priority,
    attempts := 0, max_attempts := 5, status := OutboxStatus.PENDING, error := none }

/-! ## Push engine (src/src/sync/push-sync.ts) -/

/-- Static entity-type to cloud-path mapping of PushSyncEngine (push-sync.ts
lines 35-43), kept as the association list the TypeScript record denotes. -/
def pushEndpoints : List (String × String) :=
  [("sale", "/api/hub/push/sale"),
   ("kitchen_order", "/api/hub/push/kitchen-order"),
   ("cash_drawer", "/api/hub/push/cash-drawer"),
   ("shift_log", "/api/hub/push/shift"),
   ("gift_card", "/api/hub/push/gift-card"),
   ("refund", "/api/hub/push/refund"),
   ("store_credit", "/api/hub/push/store-credit")]

/-- Lookup of `this.pushEndpoints[item.entity_type]`. -/
def findEndpoint (entityType : String) : Option String :=
  (pushEndpoints.find? (fun p => p.1 = entityType)).map (fun p => p.2)

/-- Result of processing one claimed outbox item: the updated row together
with whether the engine actually issued the cloud POST. -/
structure PushStepResult where
  item : OutboxItem
  cloudCalled : Bool
deriving DecidableEq, Repr

/-- UPDATE outbox_queue SET status, error: shared shape of the terminal and
retriable updates the per-item loop issues. -/
def setStatusError (st : OutboxStatus) (err : Option String) (it : OutboxItem) : OutboxItem :=
  { it with status := st, error := err }

/-- Body of the per-item loop of PushSyncEngine.processOutbox (push-sync.ts
lines 89-161) for one already-selected item. The first update marks the row
PROCESSING and increments attempts; the later branches overwrite the status.
`parseOk` abstracts whether `JSON.parse(item.payload)` succeeds, and `resp`
is the response of `cloudClient.post` for this item. Note that the retry
bound compares `item.attempts + 1` (the snapshot read at SELECT time, plus
one) against `item.max_attempts`, exactly as the source does. -/
def processOutboxItem (parseOk : String → Bool) (resp : CloudResponse)
    (it : OutboxItem) : PushStepResult :=
  let it1 := { it with status := OutboxStatus.PROCESSING, attempts := it.attempts + 1 }
  match findEndpoint it.entity_type with
  | none =>
      { item := setStatusError OutboxStatus.DEAD_LETTER (some "Unknown entity type") it1,
        cloudCalled := false }
  | some _ =>
      if parseOk it.payload = false then
        { item := setStatusError OutboxStatus.DEAD_LETTER (some "Invalid JSON payload") it1,
          cloudCalled := false }
      else if resp.ok then
        { item := { it1 with status := OutboxStatus.SYNCED }, cloudCalled := true }
      else if resp.status = 409 then
        { item := setStatusError OutboxStatus.SYNCED (some "Duplicate (409)") it1,
          cloudCalled := true }
      else if 400 ≤ resp.status ∧ resp.status < 500 then
        { item := setStatusError OutboxStatus.DEAD_LETTER
            (some ("HTTP " ++ toString resp.status ++ ": " ++ resp.error.getD "Client error")) it1,
          cloudCalled := true }
      else
        if it.max_attempts ≤ it.attempts + 1 then
          { item := setStatusError OutboxStatus.DEAD_LETTER
              (some ("Max attempts reached. Last: HTTP " ++ toString resp.status)) it1,
            cloudCalled := true }
        else
          { item := setStatusError OutboxStatus.PENDING
              (some ("HTTP " ++ toString resp.status ++ ": " ++ resp.error.getD "Server error")) it1,
            cloudCalled := true }

/-- Pickup condition of the claiming SELECT (push-sync.ts lines 80-85):
status PENDING and attempts below max_attempts. -/
def eligibleForPickup (it : OutboxItem) : Prop :=
  it.status = OutboxStatus.PENDING ∧ it.attempts < it.max_attempts

instance (it : OutboxItem) : Decidable (eligibleForPickup it) := by
  unfold eligibleForPickup; infer_instance

/-- One engine tick restricted to a single tracked row: the row is processed
iff the claiming SELECT would pick it, otherwise it is left untouched. -/
def pushTick (parseOk : String → Bool) (resp : CloudResponse)
    (it : OutboxItem) : OutboxItem :=
  if eligibleForPickup it then (processOutboxItem parseOk resp it).item else it

/-- Iterated engine ticks against a cloud that answers every POST with the
same response (for example, always HTTP 500). -/
def pushTicks (parseOk : String → Bool) (resp : CloudResponse) :
    Nat → OutboxItem → OutboxItem
  | 0, it => it
  | Nat.succ k, it => pushTick parseOk resp (pushTicks parseOk resp k it)

/-! ## Store rows (db/schema.ts) and the hub state -/

/-- Row of the sales table: the columns the verified properties mention
(identity, receipt number, lifecycle status) plus the serialized request
body the route stores in data_blob. Presentation-only columns are elided. -/
structure SaleRow where
  id : String
  tenant_id : String
  location_id : String
  receipt_number : String
  order_type : String
  total : Int
  status : String
  sync_status : String
  data_blob : String
deriving DecidableEq, Repr

/-- Row of the sale_items table (claim-relevant columns). -/
structure SaleItemRow where
  id : String
  sale_id : String
  product_id : String
  quantity : Int
  unit_price : Int
  total : Int
deriving DecidableEq, Repr

/-- Row of the payments table (claim-relevant columns). -/
structure PaymentRow where
  id : String
  sale_id : String
  method : String
  amount : Int
deriving DecidableEq, Repr

/-- Row of the users table (claim-relevant columns). -/
structure UserRow where
  id : String
  tenant_id : String
  pin_hash : Option String
  is_active : Bool
deriving DecidableEq, Repr

/-- Row of the kitchen_orders table (claim-relevant columns). -/
structure KitchenOrderRow where
  id : String
  status : String
  fired_at : Option Nat
  completed_at : Option Nat
  sync_status : String
deriving DecidableEq, Repr

/-- Row of the kitchen_order_items table (claim-relevant columns). -/
structure KitchenItemRow where
  id : String
  kitchen_order_id : String
  status : String
deriving DecidableEq, Repr

/-- Row of the sync_state table (claim-relevant columns). -/
structure SyncRow where
  record_count : Nat
  status : String
deriving DecidableEq, Repr

/-- The SQLite file of the hub: every table is a list of rows, the
order_sequence and sync_state tables are association lists on their
primary keys. -/
structure HubDb where
  sales : List SaleRow
  sale_items : List SaleItemRow
  payments : List PaymentRow
  users : List UserRow
  kitchen_orders : List KitchenOrderRow
  kitchen_order_items : List KitchenItemRow
  order_sequence : List (String × Nat)
  sync_state : List (String × SyncRow)
  outbox_queue : List OutboxItem
deriving DecidableEq, Repr

/-- Empty database, as initializeSchema leaves a fresh file. -/
def emptyDb : HubDb :=
  { sales := [], sale_items := [], payments := [], users := [],
    kitchen_orders := [], kitchen_order_items := [], order_sequence := [],
    sync_state := [], outbox_queue := [] }

/-! ## Store helpers (src/src/db/index.ts, part_001) -/

/-- Transaction combinator of db/index.ts lines 42-46 over better-sqlite3: the
callback runs as one atomic unit; if it throws, every write it made is rolled
back, so the resulting state is the input state. -/
def transaction {α : Type} (fn : HubDb → Except String (HubDb × α)) (db : HubDb) :
    HubDb × Except String α :=
  match fn db with
  | Except.ok (db2, a) => (db2, Except.ok a)
  | Except.error e => (db, Except.error e)

/-- Decimal digit character, value 0-9 mapped to codepoints 48-57. -/
def digitChar (d : Nat) : Char := Char.ofNat (48 + d)

/-- Fuel-driven digit expansion, most significant digit first; the fuel only
needs to exceed the number of digits. -/
def natToDigitsAux : Nat → Nat → List Char
  | 0, _ => []
  | Nat.succ fuel, n =>
      if n < 10 then [digitChar n]
      else natToDigitsAux fuel (n / 10) ++ [digitChar (n % 10)]

/-- Decimal digit list of a natural number, most significant first: the
semantics of the JavaScript String(number) conversion for the non-negative
integer counter of order_sequence. -/
def natToDigits (n : Nat) : List Char := natToDigitsAux (n + 1) n

/-- Decimal rendering of a natural number (String(number) in the source). -/
def natToString (n : Nat) : String := String.mk (natToDigits n)

/-- String.prototype.padStart(4, "0"): left-pad with zeros to length 4. -/
def padStart4 (s : String) : String :=
  String.mk (List.replicate (4 - s.length) '0') ++ s

/-- Receipt number format of nextReceiptNumber (db/index.ts line 61):
dateKey, a dash, and the sequence value zero-padded to at least 4 digits. -/
def receiptString (dateKey : String) (v : Nat) : String :=
  dateKey ++ "-" ++ padStart4 (natToString v)

/-- Numeric value of a decimal digit character sequence, most significant
first (specification-side inverse used to state the contiguity of receipt
suffixes; not part of the source). -/
def digitsToNat (cs : List Char) : Nat :=
  cs.foldl (fun a c => 10 * a + (c.toNat - 48)) 0

/-- Numeric suffix of a receipt number minted for the given date key: the
value of the characters after the date key and the dash. -/
def receiptValue (dateKey : String) (s : String) : Nat :=
  digitsToNat (s.data.drop (dateKey.data.length + 1))

/-- Current counter of a date key in order_sequence, absent keys read as 0
(the row that INSERT OR CONFLICT creates starts the sequence at 1). -/
def seqLookup (dateKey : String) (seq : List (String × Nat)) : Option Nat :=
  (seq.find? (fun p => p.1 = dateKey)).map (fun p => p.2)

/-- Upsert of the order_sequence row for a date key. -/
def seqStore (dateKey : String) (v : Nat) (seq : List (String × Nat)) :
    List (String × Nat) :=
  if (seq.find? (fun p => p.1 = dateKey)).isSome
  then seq.map (fun p => if p.1 = dateKey then (dateKey, v) else p)
  else (dateKey, v) :: seq

/-- nextReceiptNumber (db/index.ts lines 49-62): one atomic
INSERT INTO order_sequence (date_key, current_value) VALUES (?, 1)
ON CONFLICT(date_key) DO UPDATE SET current_value = current_value + 1
RETURNING current_value, then format dateKey-NNNN. SQLite serializes the
statement, so concurrent calls compose sequentially. -/
def nextReceiptNumber (dateKey : String) (db : HubDb) : HubDb × String :=
  match seqLookup dateKey db.order_sequence with
  | none =>
      ({ db with order_sequence := seqStore dateKey 1 db.order_sequence },
       receiptString dateKey 1)
  | some v =>
      ({ db with order_sequence := seqStore dateKey (v + 1) db.order_sequence },
       receiptString dateKey (v + 1))

/-- Sequence of n nextReceiptNumber calls on one date key, returning the
minted receipt numbers in call order. -/
def receiptCalls (dateKey : String) (db : HubDb) : Nat → HubDb × List String
  | 0 => (db, [])
  | Nat.succ k =>
      let r := nextReceiptNumber dateKey db
      let rest := receiptCalls dateKey r.1 k
      (rest.1, r.2 :: rest.2)

/-! ## Sales route (src/src/api/sales.ts, POST /api/sales) -/

/-- One element of the request body items array. -/
structure SaleItemInput where
  productId : String
  quantity : Int
  unitPrice : Int
  total : Int
deriving DecidableEq, Repr

/-- One element of the request body payments array. -/
structure PaymentInput where
  method : String
  amount : Int
deriving DecidableEq, Repr

/-- Request body of POST /api/sales (claim-relevant fields). -/
structure SaleBody where
  terminalId : Option String
  orderType : Option String
  total : Int
  items : List SaleItemInput
  payments : List PaymentInput
deriving DecidableEq, Repr

/-- Executable stand-in for JSON.stringify(body): the exact rendering is
irrelevant to every verified property, only that some string is stored. -/
def SaleBody.encode (b : SaleBody) : String :=
  "total=" ++ toString b.total ++ ";items=" ++ toString b.items.length
    ++ ";payments=" ++ toString b.payments.length

/-- Response object of POST /api/sales. -/
structure SaleResponse where
  id : String
  receiptNumber : String
  status : String
  total : Int
deriving DecidableEq, Repr

/-- Sale row the route inserts (the VALUES list of the sales INSERT). -/
def saleRowOf (tenant location saleId receiptNum : String) (body : SaleBody) : SaleRow :=
  { id := saleId, tenant_id := tenant, location_id := location,
    receipt_number := receiptNum, order_type := body.orderType.getD "TAKE_OUT",
    total := body.total, status := "COMPLETED", sync_status := "PENDING",
    data_blob := body.encode }

/-- One sale_items row from the enumerated body items (index and input). -/
def saleItemRowOf (ids : Nat → String) (saleId : String)
    (p : Nat × SaleItemInput) : SaleItemRow :=
  { id := ids (1 + p.1), sale_id := saleId, product_id := p.2.productId,
    quantity := p.2.quantity, unit_price := p.2.unitPrice, total := p.2.total }

/-- One payments row from the enumerated body payments. -/
def paymentRowOf (ids : Nat → String) (nItems : Nat) (saleId : String)
    (p : Nat × PaymentInput) : PaymentRow :=
  { id := ids (1 + nItems + p.1), sale_id := saleId,
    method := p.2.method, amount := p.2.amount }

/-- Transaction body of POST /api/sales (sales.ts lines 10-94): mint the sale
id and receipt number, insert the sale row, one sale_items row per body item,
one payments row per body payment, and one outbox_queue row
(entity_type sale, entity_id saleId, action create, priority 10,
correlation_id saleId). `ids` is the generateId supply, consumed in call
order; `tenant`/`location` come from config; `dateKey` is the current date. -/
def salesTxBody (ids : Nat → String) (tenant location dateKey : String)
    (body : SaleBody) (db : HubDb) : Except String (HubDb × SaleResponse) :=
  let saleId := ids 0
  let r := nextReceiptNumber dateKey db
  let db1 := r.1
  let sale : SaleRow := saleRowOf tenant location saleId r.2 body
  let itemRows := body.items.enum.map (saleItemRowOf ids saleId)
  let payRows := body.payments.enum.map (paymentRowOf ids body.items.length saleId)
  let ob := newOutboxRow (db1.outbox_queue.length + 1) "sale" saleId "create"
    body.encode (some saleId) 10
  Except.ok
    ({ db1 with sales := db1.sales ++ [sale],
                sale_items := db1.sale_items ++ itemRows,
                payments := db1.payments ++ payRows,
                outbox_queue := db1.outbox_queue ++ [ob] },
     { id := saleId, receiptNumber := r.2, status := "COMPLETED",
       total := body.total })

/-- POST /api/sales: the whole handler body runs inside transaction(...). -/
def postSales (ids : Nat → String) (tenant location dateKey : String)
    (body : SaleBody) (db : HubDb) : HubDb × Except String SaleResponse :=
  transaction (salesTxBody ids tenant location dateKey body) db

/-! ## Recent-user MRU cache (auth route source file, part_011 lines 40-50) -/

/-- Bound of the recent-user list (MAX_RECENT_USERS). -/
def MAX_RECENT_USERS : Nat := 5

/-- recordRecentUser: remove the id if present (indexOf + splice), unshift it
to the front, and pop the last element when the bound is exceeded. -/
def recordRecentUser (userId : String) (cache : List String) : List String :=
  let l := userId :: cache.erase userId
  if MAX_RECENT_USERS < l.length then l.dropLast else l

/-! ## User admin route (src/src/api/users.ts, POST /api/users/:userId/change-pin) -/

/-- Response of the change-pin route. -/
inductive ChangePinResult where
  | notFound
  | success
deriving DecidableEq, Repr

/-- POST /api/users/:userId/change-pin (users.ts lines 19-45): look the user
up by id and tenant; if absent answer 404; otherwise, in one transaction,
update users.pin_hash and insert one outbox_queue row
(entity_type user, entity_id userId, action update_pin, priority 5, no
correlation id). `pinHash` stands for bcrypt.hashSync(newPin, 12). The route
body contains no reference to the recent-user cache of the auth module; the
cache is threaded through unchanged to make that observable. -/
def changePin (tenant userId pinHash payload : String) (db : HubDb)
    (cache : List String) : HubDb × List String × ChangePinResult :=
  match db.users.find? (fun u => u.id = userId ∧ u.tenant_id = tenant) with
  | none => (db, cache, ChangePinResult.notFound)
  | some _ =>
      let fn : HubDb → Except String (HubDb × Unit) := fun d =>
        Except.ok
          ({ d with
              users := d.users.map (fun u =>
                if u.id = userId then { u with pin_hash := some pinHash } else u),
              outbox_queue := d.outbox_queue ++
                [newOutboxRow (d.outbox_queue.length + 1) "user" userId
                  "update_pin" payload none 5] },
           ())
      ((transaction fn db).1, cache, ChangePinResult.success)

/-! ## PIN rate limiter and auth route (part_011) -/

/-- PIN_RATE_LIMIT: at most 10 attempts per window. -/
def PIN_RATE_LIMIT : Nat := 10

/-- PIN_RATE_WINDOW_MS: five minutes in milliseconds. -/
def PIN_RATE_WINDOW_MS : Nat := 5 * 60 * 1000

/-- Bucket of the in-memory pinAttempts map. -/
structure RateEntry where
  count : Nat
  resetAt : Nat
deriving DecidableEq, Repr

/-- The process-local pinAttempts map, client ip to bucket. -/
abbrev RateMap := List (String × RateEntry)

/-- Map read for one ip. -/
def rateGet (ip : String) (m : RateMap) : Option RateEntry :=
  (m.find? (fun p => p.1 = ip)).map (fun p => p.2)

/-- Map write for one ip. -/
def rateSet (ip : String) (e : RateEntry) (m : RateMap) : RateMap :=
  if (m.find? (fun p => p.1 = ip)).isSome
  then m.map (fun p => if p.1 = ip then (ip, e) else p)
  else (ip, e) :: m

/-- checkPinRateLimit (part_011 lines 21-30): a missing or expired bucket is
replaced by a fresh one with count 1 and the call is allowed; otherwise the
count is incremented and the call is allowed iff the new count is within
PIN_RATE_LIMIT. -/
def checkPinRateLimit (now : Nat) (ip : String) (m : RateMap) : RateMap × Bool :=
  match rateGet ip m with
  | none => (rateSet ip { count := 1, resetAt := now + PIN_RATE_WINDOW_MS } m, true)
  | some e =>
      if e.resetAt ≤ now then
        (rateSet ip { count := 1, resetAt := now + PIN_RATE_WINDOW_MS } m, true)
      else
        (rateSet ip { e with count := e.count + 1 } m, e.count + 1 ≤ PIN_RATE_LIMIT)

/-- Outcome of POST /api/auth/pin as the terminal observes it. -/
inductive PinOutcome where
  | badRequest
  | tooManyAttempts
  | invalidPin
  | authorized (userId : String)
deriving DecidableEq, Repr

/-- POST /api/auth/pin up to the authentication decision (part_011 lines
54-124): reject malformed PINs with 400 before the limiter runs; then consult
checkPinRateLimit and answer 429 when it denies; otherwise the bcrypt scan
(abstracted by matchedUser, since hashing is external crypto) decides between
401 and success. The rate bucket is consumed on both matched and unmatched
well-formed attempts. -/
def authPinAttempt (now : Nat) (ip pin : String) (matchedUser : Option String)
    (m : RateMap) : RateMap × PinOutcome :=
  if pin.length < 4 ∨ 10 < pin.length then (m, PinOutcome.badRequest)
  else
    let r := checkPinRateLimit now ip m
    if r.2 = false then (r.1, PinOutcome.tooManyAttempts)
    else
      match matchedUser with
      | some uid => (r.1, PinOutcome.authorized uid)
      | none => (r.1, PinOutcome.invalidPin)

/-- One attempt record: time, submitted pin, and whether the bcrypt scan
would match a user for it. -/
structure AttemptInput where
  time : Nat
  pin : String
  matchedUser : Option String
deriving DecidableEq, Repr

/-- Fold a list of attempts from one ip through the auth route. -/
def runAttempts (ip : String) (m : RateMap) : List AttemptInput → RateMap
  | [] => m
  | a :: rest => runAttempts ip (authPinAttempt a.time ip a.pin a.matchedUser m).1 rest

/-! ## Kitchen order bump route (part_006, POST /api/kitchen-orders/:id/bump) -/

/-- Status flow table of the bump route (part_006 lines 252-256). -/
def statusFlow : String → Option String
  | "PENDING" => some "PREPARING"
  | "PREPARING" => some "READY"
  | "READY" => some "COMPLETED"
  | _ => none

/-- WebSocket frame the route broadcasts after the transaction commits. -/
structure BroadcastEvent where
  event : String
  orderId : String
  status : String
deriving DecidableEq, Repr

/-- Response of the bump route. -/
inductive BumpResult where
  | notFound
  | cannotBump (message : String)
  | bumped (previousStatus newStatus : String)
deriving DecidableEq, Repr

/-- Serialized body of the outbox row the bump route enqueues
(JSON.stringify of id and status; stand-in encoding). -/
def bumpPayload (id nxt : String) : String := "id=" ++ id ++ ";status=" ++ nxt

/-- SET clause of the bump UPDATE on the kitchen_orders row: advance the
status, mark the row for re-sync, set fired_at when entering PREPARING and
completed_at when entering COMPLETED. -/
def bumpOrderUpdate (now : Nat) (nxt : String) (r : KitchenOrderRow) : KitchenOrderRow :=
  { r with status := nxt, sync_status := "PENDING",
           fired_at := if nxt = "PREPARING" then some now else r.fired_at,
           completed_at := if nxt = "COMPLETED" then some now else r.completed_at }

/-- Item-advancing UPDATE of the bump route: every non-voided item of the
order follows the order status. -/
def bumpItemUpdate (id nxt : String) (i : KitchenItemRow) : KitchenItemRow :=
  if i.kitchen_order_id = id ∧ i.status ≠ "VOIDED" then { i with status := nxt } else i

/-- POST /api/kitchen-orders/:id/bump (part_006 lines 241-286): read the
order; 404 when absent; refuse with success false when statusFlow has no
successor; otherwise, in one transaction, advance the order status (setting
fired_at on PREPARING and completed_at on COMPLETED), advance every
non-voided item of the order, and enqueue one outbox_queue row
(kitchen_order, id, update, priority 5); after the transaction commits,
broadcast one order:status event. The broadcast list is returned alongside
the committed state: it is nonempty only on the committed path. -/
def bumpKitchenOrder (now : Nat) (id : String) (db : HubDb) :
    HubDb × BumpResult × List BroadcastEvent :=
  match db.kitchen_orders.find? (fun o => o.id = id) with
  | none => (db, BumpResult.notFound, [])
  | some o =>
      match statusFlow o.status with
      | none =>
          (db, BumpResult.cannotBump ("Cannot bump from status " ++ o.status), [])
      | some nxt =>
          let db1 := { db with
            kitchen_orders := db.kitchen_orders.map (fun r =>
              if r.id = id then bumpOrderUpdate now nxt r else r),
            kitchen_order_items := db.kitchen_order_items.map (bumpItemUpdate id nxt),
            outbox_queue := db.outbox_queue ++
              [newOutboxRow (db.outbox_queue.length + 1) "kitchen_order" id
                "update" (bumpPayload id nxt) none 5] }
          (db1, BumpResult.bumped o.status nxt,
           [{ event := "order:status", orderId := id, status := nxt }])

/-! ## Pull engine (PullSyncEngine source file, part_000)

The per-entity handlers differ only in mechanical row mapping; what the
verified properties depend on is their control flow around the cloud
response, which comes in six shapes in the source:

* fetchBased: the handler calls fetchAndTransform, which returns an empty
  batch on HTTP 404 and throws on any other failure (part_000 lines
  332-344); on return the handler upserts and marks sync_state SUCCESS.
* direct: the handler calls cloudClient.get itself and on any non-ok
  response returns pulled 0 with the error recorded, without touching
  sync_state (for example pullProducts, lines 368-374).
* directWith404: like direct but with an explicit 404 early return that
  records no error and does not touch sync_state (pullDealItems, the pizza
  price handlers, kitchen/sales mirrors).
* cheesePrices: pullPizzaCheesesPrices (lines 1196-1223) is directWith404,
  except that its success path ends in updateSyncState("pizza_cheese_prices",
  count) where no variable count is in scope, so on every 2xx response the
  handler throws a ReferenceError (count is not defined) after replacing the
  table and before updating sync_state.
* singleSettings: pullLocationSettings (lines 825-901) stores one row; an ok
  response without a data.id returns quietly without touching sync_state.
* perTerminal: pullTerminalSettings (lines 903-954) loops over registered
  terminals, records one error per failed terminal call, and always ends in
  updateSyncState when at least one terminal exists; zero terminals return
  before any cloud call.

Cloud responses are abstracted to a status code plus the number of records
in the body; row transformation contents are irrelevant to the claims. -/

/-- Control-flow shape of one pull handler (see the section comment). -/
inductive HandlerKind where
  | fetchBased
  | direct
  | directWith404
  | cheesePrices
  | singleSettings
  | perTerminal
deriving DecidableEq, Repr

/-- Abstracted cloud response for one pull endpoint. -/
structure PullResp where
  status : Nat
  items : Nat
deriving DecidableEq, Repr

/-- Whether the cloud client would report the response as ok (HTTP 2xx). -/
def pullOk (r : PullResp) : Bool := decide (200 ≤ r.status ∧ r.status < 300)

/-- Per-entity result record of the pull engine. -/
structure PullOutcome where
  entity : String
  pulled : Nat
  errors : List String
deriving DecidableEq, Repr

/-- Error message fetchAndTransform and the direct handlers build from a
failed response whose envelope carries no message: HTTP and the code. -/
def httpErrText (status : Nat) : String := "HTTP " ++ toString status

/-- updateSyncState (part_000 lines 246-257): upsert of the sync_state row
with the fresh record count and status SUCCESS. -/
def updateSyncState (name : String) (count : Nat) (m : List (String × SyncRow)) :
    List (String × SyncRow) :=
  if (m.find? (fun p => p.1 = name)).isSome
  then m.map (fun p => if p.1 = name
    then (name, { record_count := count, status := "SUCCESS" }) else p)
  else (name, { record_count := count, status := "SUCCESS" }) :: m

/-- One pull handler, by shape: Except.error models a thrown exception that
runFullSync will catch; the ok value carries the per-entity outcome and the
updated sync_state table. `terminals` is the number of registered terminals
(used by the perTerminal shape only). -/
def runHandler (k : HandlerKind) (name : String) (resp : PullResp)
    (terminals : Nat) (sync : List (String × SyncRow)) :
    Except String (PullOutcome × List (String × SyncRow)) :=
  match k with
  | HandlerKind.fetchBased =>
      if pullOk resp then
        Except.ok ({ entity := name, pulled := resp.items, errors := [] },
          updateSyncState name resp.items sync)
      else if resp.status = 404 then
        Except.ok ({ entity := name, pulled := 0, errors := [] },
          updateSyncState name 0 sync)
      else Except.error (httpErrText resp.status)
  | HandlerKind.direct =>
      if pullOk resp then
        Except.ok ({ entity := name, pulled := resp.items, errors := [] },
          updateSyncState name resp.items sync)
      else
        Except.ok ({ entity := name, pulled := 0, errors := [httpErrText resp.status] }, sync)
  | HandlerKind.directWith404 =>
      if pullOk resp then
        Except.ok ({ entity := name, pulled := resp.items, errors := [] },
          updateSyncState name resp.items sync)
      else if resp.status = 404 then
        Except.ok ({ entity := name, pulled := 0, errors := [] }, sync)
      else
        Except.ok ({ entity := name, pulled := 0, errors := [httpErrText resp.status] }, sync)
  | HandlerKind.cheesePrices =>
      if pullOk resp then Except.error "count is not defined"
      else if resp.status = 404 then
        Except.ok ({ entity := name, pulled := 0, errors := [] }, sync)
      else
        Except.ok ({ entity := name, pulled := 0, errors := [httpErrText resp.status] }, sync)
  | HandlerKind.singleSettings =>
      if pullOk resp = false then
        Except.ok ({ entity := name, pulled := 0, errors := [httpErrText resp.status] }, sync)
      else if resp.items = 0 then
        Except.ok ({ entity := name, pulled := 0, errors := [] }, sync)
      else
        Except.ok ({ entity := name, pulled := 1, errors := [] },
          updateSyncState name 1 sync)
  | HandlerKind.perTerminal =>
      if terminals = 0 then
        Except.ok ({ entity := name, pulled := 0, errors := [] }, sync)
      else if pullOk resp then
        let pulled := if resp.items = 0 then 0 else terminals
        Except.ok ({ entity := name, pulled := pulled, errors := [] },
          updateSyncState name pulled sync)
      else
        let errs := List.replicate terminals ("Terminal: " ++ httpErrText resp.status)
        Except.ok ({ entity := name, pulled := 0, errors := errs },
          updateSyncState name 0 sync)

/-- The dependency-ordered pull plan (part_000 lines 159-213), each entity
tagged with the control-flow shape of its handler as read off the source. -/
def pullPlan : List (String × HandlerKind) :=
  [("categories", HandlerKind.fetchBased),
   ("products", HandlerKind.direct),
   ("product_variants", HandlerKind.fetchBased),
   ("tax_types", HandlerKind.fetchBased),
   ("location_taxes", HandlerKind.fetchBased),
   ("location_category_taxes", HandlerKind.fetchBased),
   ("customers", HandlerKind.fetchBased),
   ("modifier_groups", HandlerKind.fetchBased),
   ("modifiers", HandlerKind.fetchBased),
   ("product_modifier_groups", HandlerKind.fetchBased),
   ("discount_templates", HandlerKind.direct),
   ("gift_cards", HandlerKind.direct),
   ("coupon_codes", HandlerKind.direct),
   ("deals", HandlerKind.direct),
   ("deal_items", HandlerKind.directWith404),
   ("deal_time_restrictions", HandlerKind.fetchBased),
   ("deal_size_prices", HandlerKind.fetchBased),
   ("users", HandlerKind.direct),
   ("location_settings", HandlerKind.singleSettings),
   ("terminal_settings", HandlerKind.perTerminal),
   ("floors", HandlerKind.direct),
   ("areas", HandlerKind.direct),
   ("tables", HandlerKind.direct),
   ("courses", HandlerKind.direct),
   ("note_presets", HandlerKind.fetchBased),
   ("location_product_overrides", HandlerKind.fetchBased),
   ("pizza_size_prices", HandlerKind.directWith404),
   ("pizza_topping_prices", HandlerKind.directWith404),
   ("pizza_crust_prices", HandlerKind.directWith404),
   ("pizza_sauce_prices", HandlerKind.directWith404),
   ("pizza_cheese_prices", HandlerKind.cheesePrices),
   ("pizza_size_order_type_prices", HandlerKind.fetchBased),
   ("pizza_location_config", HandlerKind.directWith404),
   ("roles", HandlerKind.fetchBased),
   ("inventory_levels", HandlerKind.fetchBased),
   ("post_codes", HandlerKind.fetchBased),
   ("customer_addresses", HandlerKind.fetchBased),
   ("category_schedules", HandlerKind.fetchBased),
   ("price_schedules", HandlerKind.fetchBased),
   ("deal_size_order_type_prices", HandlerKind.fetchBased),
   ("location_business_hours", HandlerKind.fetchBased),
   ("web_order_settings", HandlerKind.directWith404),
   ("caller_id_config", HandlerKind.fetchBased),
   ("caller_id_lines", HandlerKind.fetchBased),
   ("cash_drawers", HandlerKind.fetchBased),
   ("cash_drawer_transactions", HandlerKind.fetchBased),
   ("staff_banks", HandlerKind.fetchBased),
   ("staff_bank_transactions", HandlerKind.fetchBased),
   ("store_credits", HandlerKind.fetchBased),
   ("kitchen_orders", HandlerKind.directWith404),
   ("kitchen_order_items", HandlerKind.directWith404),
   ("sales", HandlerKind.directWith404),
   ("sale_items", HandlerKind.directWith404)]

/-- Loop body of runFullSync (part_000 lines 215-227): run the handler; a
thrown error is caught, recorded as the per-entity errors list, and the cycle
continues with the sync_state table it had before the handler ran. -/
def runPlanStep (resp : String → PullResp) (terminals : Nat)
    (acc : List PullOutcome × List (String × SyncRow)) (e : String × HandlerKind) :
    List PullOutcome × List (String × SyncRow) :=
  match runHandler e.2 e.1 (resp e.1) terminals acc.2 with
  | Except.ok (r, s2) => (acc.1 ++ [r], s2)
  | Except.error msg => (acc.1 ++ [{ entity := e.1, pulled := 0, errors := [msg] }], acc.2)

/-- One full pull cycle over a plan: the fold of runPlanStep. -/
def runPlan (resp : String → PullResp) (terminals : Nat)
    (plan : List (String × HandlerKind)) (sync : List (String × SyncRow)) :
    List PullOutcome × List (String × SyncRow) :=
  plan.foldl (runPlanStep resp terminals) ([], sync)

/-- runFullSync over the actual dependency-ordered plan. -/
def runFullSync (resp : String → PullResp) (terminals : Nat)
    (sync : List (String × SyncRow)) : List PullOutcome × List (String × SyncRow) :=
  runPlan resp terminals pullPlan sync

/-- Status of the sync_state row of one entity after a cycle. -/
def syncStatusOf (name : String) (m : List (String × SyncRow)) : Option String :=
  ((m.find? (fun p => p.1 = name)).map (fun p => p.2)).map (fun r => r.status)

/-- Per-entity outcome lookup in the result list of a cycle. -/
def outcomeOf (name : String) (rs : List PullOutcome) : Option PullOutcome :=
  rs.find? (fun r => r.entity = name)

/-! ## Push engine lemmas -/

/-- One tick on an eligible, endpoint-resolvable, parseable row against an
always-500 cloud: the attempts counter moves up by one; the row dead-letters
when the incremented counter reaches max_attempts and returns to PENDING with
the error recorded otherwise. -/
theorem pushTick_500 (parseOk : String → Bool) (it : OutboxItem)
    (hst : it.status = OutboxStatus.PENDING) (hlt : it.attempts < it.max_attempts)
    (hep : (findEndpoint it.entity_type).isSome = true)
    (hpl : parseOk it.payload = true) :
    pushTick parseOk (httpResponse 500) it =
      if it.max_attempts ≤ it.attempts + 1 then
        setStatusError OutboxStatus.DEAD_LETTER
          (some "Max attempts reached. Last: HTTP 500") { it with attempts := it.attempts + 1 }
      else
        setStatusError OutboxStatus.PENDING
          (some "HTTP 500: Server error") { it with attempts := it.attempts + 1 } := by
  obtain ⟨ep, hep2⟩ := Option.isSome_iff_exists.mp hep
  have helig : eligibleForPickup it := ⟨hst, hlt⟩
  unfold pushTick
  rw [if_pos helig]
  unfold processOutboxItem
  rw [hep2]
  simp only [hpl, httpResponse, setStatusError]
  norm_num
  split <;> rfl

/-- One tick on an eligible, endpoint-resolvable, parseable row when the
cloud answers 409 Conflict: the row is marked SYNCED with the duplicate
note. -/
theorem pushTick_409 (parseOk : String → Bool) (it : OutboxItem)
    (hst : it.status = OutboxStatus.PENDING) (hlt : it.attempts < it.max_attempts)
    (hep : (findEndpoint it.entity_type).isSome = true)
    (hpl : parseOk it.payload = true) :
    pushTick parseOk (httpResponse 409) it =
      setStatusError OutboxStatus.SYNCED (some "Duplicate (409)")
        { it with attempts := it.attempts + 1 } := by
  obtain ⟨ep, hep2⟩ := Option.isSome_iff_exists.mp hep
  have helig : eligibleForPickup it := ⟨hst, hlt⟩
  unfold pushTick
  rw [if_pos helig]
  unfold processOutboxItem
  rw [hep2]
  simp only [hpl, httpResponse, setStatusError]
  norm_num

/-- A row that is already SYNCED or DEAD_LETTER is not eligible for pickup,
so a tick leaves it unchanged. -/
theorem pushTick_not_pending (parseOk : String → Bool) (resp : CloudResponse)
    (it : OutboxItem) (h : it.status ≠ OutboxStatus.PENDING) :
    pushTick parseOk resp it = it := by
  unfold pushTick
  rw [if_neg]
  intro helig
  exact h helig.1

/-- Complete description of the always-500 run up to the retry bound: after k
of at most max_attempts ticks the attempts counter reads k, the status is
PENDING until the counter reaches max_attempts and DEAD_LETTER exactly then,
and the recorded error is the retry message before the last attempt and the
max-attempts message on it. -/
theorem pushTicks_500_state (parseOk : String → Bool) (it : OutboxItem) (k : Nat)
    (hm : 1 ≤ it.max_attempts)
    (hst : it.status = OutboxStatus.PENDING) (ha : it.attempts = 0)
    (hep : (findEndpoint it.entity_type).isSome = true)
    (hpl : parseOk it.payload = true)
    (hk : k ≤ it.max_attempts) :
    pushTicks parseOk (httpResponse 500) k it =
      { it with
      attempts := k,
      status := if k = it.max_attempts then OutboxStatus.DEAD_LETTER
        else OutboxStatus.PENDING,
      error := if k = 0 then it.error
        else if k = it.max_attempts then some "Max attempts reached. Last: HTTP 500"
        else some "HTTP 500: Server error" } := by
  induction k with
  | zero =>
      show it = _
      rw [if_neg (by omega), if_pos rfl, ← hst, ← ha]
  | succ n ih =>
      have hnm : n < it.max_attempts := by omega
      show pushTick parseOk (httpResponse 500) (pushTicks parseOk (httpResponse 500) n it) = _
      rw [ih (by omega)]
      set prev : OutboxItem :=
        { it with
      attempts := n,
      status := if n = it.max_attempts then OutboxStatus.DEAD_LETTER
        else OutboxStatus.PENDING,
      error := if n = 0 then it.error
        else if n = it.max_attempts then some "Max attempts reached. Last: HTTP 500"
        else some "HTTP 500: Server error" } with hprev
      have hpst : prev.status = OutboxStatus.PENDING := by
        rw [hprev]; simp only []; rw [if_neg (by omega)]
      have hpat : prev.attempts = n := rfl
      have hpmx : prev.max_attempts = it.max_attempts := rfl
      have hpet : prev.entity_type = it.entity_type := rfl
      have hppl : prev.payload = it.payload := rfl
      rw [pushTick_500 parseOk prev hpst (by omega) (hpet ▸ hep) (hppl ▸ hpl)]
      rw [hpat, hpmx]
      by_cases hlast : it.max_attempts ≤ n + 1
      · rw [if_pos hlast]
        have : n + 1 = it.max_attempts := by omega
        rw [hprev]
        simp [setStatusError, this, show ¬ it.max_attempts = 0 by omega]
      · rw [if_neg hlast]
        have h1 : ¬ (n + 1 = it.max_attempts) := by omega
        rw [hprev]
        simp [setStatusError, h1]

/-- C2: for an outbox item whose cloud endpoint always answers HTTP 500, the
push engine reaches DEAD_LETTER after exactly max_attempts processing
attempts: every failed attempt before the last leaves the row PENDING again
with the retry error recorded and the attempts counter equal to the number of
attempts so far; on the attempt at which the incremented counter reaches
max_attempts the row is marked DEAD_LETTER with the max-attempts error; and
the row is never picked up again afterwards. -/
theorem C2_always_500_dead_letters_after_exactly_max_attempts
    (parseOk : String → Bool) (it : OutboxItem)
    (hm : 1 ≤ it.max_attempts)
    (hst : it.status = OutboxStatus.PENDING) (ha : it.attempts = 0)
    (hep : (findEndpoint it.entity_type).isSome = true)
    (hpl : parseOk it.payload = true) :
    (∀ k, 1 ≤ k → k < it.max_attempts →
      (pushTicks parseOk (httpResponse 500) k it).status = OutboxStatus.PENDING ∧
      (pushTicks parseOk (httpResponse 500) k it).attempts = k ∧
      (pushTicks parseOk (httpResponse 500) k it).error = some "HTTP 500: Server error") ∧
    ((pushTicks parseOk (httpResponse 500) it.max_attempts it).status =
        OutboxStatus.DEAD_LETTER ∧
      (pushTicks parseOk (httpResponse 500) it.max_attempts it).attempts =
        it.max_attempts ∧
      (pushTicks parseOk (httpResponse 500) it.max_attempts it).error =
        some "Max attempts reached. Last: HTTP 500") ∧
    (∀ k, it.max_attempts ≤ k →
      pushTicks parseOk (httpResponse 500) k it =
        pushTicks parseOk (httpResponse 500) it.max_attempts it) := by
  have hterm := pushTicks_500_state parseOk it it.max_attempts hm hst ha hep hpl le_rfl
  refine ⟨?_, ?_, ?_⟩
  · intro k hk1 hklt
    rw [pushTicks_500_state parseOk it k hm hst ha hep hpl (Nat.le_of_lt hklt)]
    refine ⟨?_, rfl, ?_⟩
    · show (if k = it.max_attempts then OutboxStatus.DEAD_LETTER
        else OutboxStatus.PENDING) = _
      rw [if_neg (by omega)]
    · show (if k = 0 then it.error
        else if k = it.max_attempts then some "Max attempts reached. Last: HTTP 500"
        else some "HTTP 500: Server error") = _
      rw [if_neg (by omega), if_neg (by omega)]
  · rw [hterm]
    exact ⟨by show (if _ then _ else _) = _; rw [if_pos rfl], rfl,
      by show (if _ then _ else _) = _; rw [if_neg (by omega), if_pos rfl]⟩
  · intro k hk
    obtain ⟨j, rfl⟩ := Nat.exists_eq_add_of_le hk
    induction j with
    | zero => rfl
    | succ n ih =>
        have : it.max_attempts + (n + 1) = (it.max_attempts + n) + 1 := by omega
        rw [this]
        show pushTick parseOk (httpResponse 500)
          (pushTicks parseOk (httpResponse 500) (it.max_attempts + n) it) = _
        rw [ih (by omega)]
        refine pushTick_not_pending parseOk (httpResponse 500) _ ?_
        rw [hterm]
        show (if _ then _ else _) ≠ _
        rw [if_pos rfl]
        intro hcon
        cases hcon

/-- Witness for C2 at a concrete sale row with max_attempts 5: after ticks 1
and 4 the row is PENDING with the matching counter, and after tick 5 it is
DEAD_LETTER with the max-attempts error. -/
theorem C2_witness :
    (pushTicks (fun _ => true) (httpResponse 500) 1
        (newOutboxRow 1 "sale" "s1" "create" "x" none 10)).status =
      OutboxStatus.PENDING ∧
    (pushTicks (fun _ => true) (httpResponse 500) 4
        (newOutboxRow 1 "sale" "s1" "create" "x" none 10)).attempts = 4 ∧
    (pushTicks (fun _ => true) (httpResponse 500) 5
        (newOutboxRow 1 "sale" "s1" "create" "x" none 10)).status =
      OutboxStatus.DEAD_LETTER ∧
    (pushTicks (fun _ => true) (httpResponse 500) 5
        (newOutboxRow 1 "sale" "s1" "create" "x" none 10)).error =
      some "Max attempts reached. Last: HTTP 500" := by
  have h := C2_always_500_dead_letters_after_exactly_max_attempts
    (fun _ => true) (newOutboxRow 1 "sale" "s1" "create" "x" none 10)
    (by decide) rfl rfl (by decide) rfl
  exact ⟨(h.1 1 (by decide) (by decide)).1, (h.1 4 (by decide) (by decide)).2.1,
    h.2.1.1, h.2.1.2.2⟩

/-- C3: a claimed outbox item whose cloud POST answers HTTP 409 is marked
SYNCED with the duplicate note — the same terminal status a 2xx response
yields, and not the DEAD_LETTER status of the other 4xx codes even though 409
lies in the 4xx range; in particular an item whose first attempt got 500 and
whose second attempt gets 409 still terminates as SYNCED. -/
theorem C3_http_409_terminates_as_synced
    (parseOk : String → Bool) (it : OutboxItem)
    (hst : it.status = OutboxStatus.PENDING) (hlt : it.attempts < it.max_attempts)
    (hep : (findEndpoint it.entity_type).isSome = true)
    (hpl : parseOk it.payload = true) :
    (pushTick parseOk (httpResponse 409) it).status = OutboxStatus.SYNCED ∧
    (pushTick parseOk (httpResponse 409) it).error = some "Duplicate (409)" ∧
    (pushTick parseOk (httpResponse 201) it).status = OutboxStatus.SYNCED ∧
    (400 ≤ (httpResponse 409).status ∧ (httpResponse 409).status < 500) ∧
    (pushTick parseOk (httpResponse 409) it).status ≠ OutboxStatus.DEAD_LETTER ∧
    (it.attempts = 0 → 2 ≤ it.max_attempts →
      (pushTick parseOk (httpResponse 409)
        (pushTick parseOk (httpResponse 500) it)).status = OutboxStatus.SYNCED) := by
  have h409 := pushTick_409 parseOk it hst hlt hep hpl
  have h201 : (pushTick parseOk (httpResponse 201) it).status = OutboxStatus.SYNCED := by
    obtain ⟨ep, hep2⟩ := Option.isSome_iff_exists.mp hep
    have helig : eligibleForPickup it := ⟨hst, hlt⟩
    unfold pushTick
    rw [if_pos helig]
    unfold processOutboxItem
    rw [hep2]
    simp only [hpl, httpResponse]
    norm_num
  refine ⟨?_, ?_, ?_, ?_, ?_, ?_⟩
  · rw [h409]; rfl
  · rw [h409]; rfl
  · exact h201
  · exact ⟨by decide, by decide⟩
  · rw [h409]; intro hcon; cases hcon
  intro ha hm2
  rw [pushTick_500 parseOk it hst hlt hep hpl, if_neg (by omega)]
  set mid := setStatusError OutboxStatus.PENDING (some "HTTP 500: Server error")
    { it with attempts := it.attempts + 1 } with hmid
  have hmlt : mid.attempts < mid.max_attempts := by
    show it.attempts + 1 < it.max_attempts
    omega
  rw [pushTick_409 parseOk mid rfl hmlt hep hpl]
  rfl

/-- Witness for C3 at a concrete sale row: the second attempt of an item
whose first attempt got 500 answers 409 and the row ends SYNCED with the
duplicate note. -/
theorem C3_witness :
    (pushTick (fun _ => true) (httpResponse 409)
        (newOutboxRow 7 "sale" "s2" "create" "y" none 10)).status =
      OutboxStatus.SYNCED ∧
    (pushTick (fun _ => true) (httpResponse 409)
        (pushTick (fun _ => true) (httpResponse 500)
          (newOutboxRow 7 "sale" "s2" "create" "y" none 10))).status =
      OutboxStatus.SYNCED := by
  have h := C3_http_409_terminates_as_synced (fun _ => true)
    (newOutboxRow 7 "sale" "s2" "create" "y" none 10)
    rfl (by decide) (by decide) rfl
  exact ⟨h.1, h.2.2.2.2.2 rfl (by decide)⟩

/-- C10: an outbox row whose entity_type falls outside the static push map
(whose domain is exactly sale, kitchen_order, cash_drawer, shift_log,
gift_card, refund and store_credit) is marked DEAD_LETTER with error
Unknown entity type on its first pickup and the engine never issues the
cloud POST for it; in particular the change-pin admin route enqueues a row
with entity_type user and action update_pin, which is outside the map. -/
theorem C10_unmapped_entity_types_dead_letter
    (parseOk : String → Bool) (resp : CloudResponse) (it : OutboxItem)
    (hunknown : findEndpoint it.entity_type = none) :
    ((processOutboxItem parseOk resp it).item.status = OutboxStatus.DEAD_LETTER ∧
      (processOutboxItem parseOk resp it).item.error = some "Unknown entity type" ∧
      (processOutboxItem parseOk resp it).item.attempts = it.attempts + 1 ∧
      (processOutboxItem parseOk resp it).cloudCalled = false) ∧
    (∀ t, (findEndpoint t).isSome = true ↔
      t ∈ ["sale", "kitchen_order", "cash_drawer", "shift_log", "gift_card",
        "refund", "store_credit"]) ∧
    (∀ tenant userId pinHash payload db cache u,
      db.users.find? (fun v => v.id = userId ∧ v.tenant_id = tenant) = some u →
      ((changePin tenant userId pinHash payload db cache).1).outbox_queue =
        db.outbox_queue ++
          [newOutboxRow (db.outbox_queue.length + 1) "user" userId "update_pin"
            payload none 5] ∧
      findEndpoint "user" = none) := by
  refine ⟨?_, ?_, ?_⟩
  · unfold processOutboxItem
    rw [hunknown]
    exact ⟨rfl, rfl, rfl, rfl⟩
  · intro t
    constructor
    · intro hsome
      rw [findEndpoint, Option.isSome_map', List.find?_isSome] at hsome
      obtain ⟨x, hx, hpx⟩ := hsome
      simp only [decide_eq_true_eq] at hpx
      rw [← hpx]
      fin_cases hx <;> decide
    · intro hmem
      fin_cases hmem <;> decide
  · intro tenant userId pinHash payload db cache u hfind
    unfold changePin
    rw [hfind]
    exact ⟨rfl, rfl⟩

/-- Witness for C10: the row the change-pin route enqueues for user u1 is
dead-lettered with Unknown entity type on first pickup without a cloud call,
on a concrete one-user database. -/
theorem C10_witness :
    ((processOutboxItem (fun _ => true) (httpResponse 500)
        (newOutboxRow 1 "user" "u1" "update_pin" "p" none 5)).item.status =
      OutboxStatus.DEAD_LETTER ∧
      (processOutboxItem (fun _ => true) (httpResponse 500)
        (newOutboxRow 1 "user" "u1" "update_pin" "p" none 5)).item.error =
      some "Unknown entity type" ∧
      (processOutboxItem (fun _ => true) (httpResponse 500)
        (newOutboxRow 1 "user" "u1" "update_pin" "p" none 5)).cloudCalled = false) ∧
    ((changePin "t1" "u1" "h2" "p"
        { emptyDb with
            users := [{ id := "u1", tenant_id := "t1", pin_hash := some "h1", is_active := true }] }
        []).1).outbox_queue =
      [newOutboxRow 1 "user" "u1" "update_pin" "p" none 5] := by
  have h := C10_unmapped_entity_types_dead_letter (fun _ => true) (httpResponse 500)
    (newOutboxRow 1 "user" "u1" "update_pin" "p" none 5) (by decide)
  refine ⟨⟨h.1.1, h.1.2.1, h.1.2.2.2⟩, ?_⟩
  have h2 := h.2.2 "t1" "u1" "h2" "p"
    { emptyDb with
        users := [{ id := "u1", tenant_id := "t1", pin_hash := some "h1", is_active := true }] }
    []
    { id := "u1", tenant_id := "t1", pin_hash := some "h1", is_active := true }
    (by decide)
  exact h2.1

/-! ## Sales route lemmas -/

/-- Closed form of nextReceiptNumber: the counter becomes its previous value
(0 for a fresh date key) plus one, and the minted number formats that
value. -/
theorem nextReceiptNumber_eq (dateKey : String) (db : HubDb) :
    nextReceiptNumber dateKey db =
      ({ db with
          order_sequence :=
            seqStore dateKey ((seqLookup dateKey db.order_sequence).getD 0 + 1)
              db.order_sequence },
       receiptString dateKey ((seqLookup dateKey db.order_sequence).getD 0 + 1)) := by
  rcases hsl : seqLookup dateKey db.order_sequence with _ | v <;>
    simp [nextReceiptNumber, hsl]

/-- Component form of POST /api/sales: the committed state extends the sales,
sale_items, payments and outbox_queue tables by the rows the route inserts
(and bumps the receipt counter); nothing else changes. -/
theorem postSales_components (ids : Nat → String) (tenant location dateKey : String)
    (body : SaleBody) (db : HubDb) :
    postSales ids tenant location dateKey body db =
      ({ db with
          order_sequence :=
            seqStore dateKey ((seqLookup dateKey db.order_sequence).getD 0 + 1)
              db.order_sequence,
          sales :=
            db.sales ++
              [saleRowOf tenant location (ids 0)
                (receiptString dateKey ((seqLookup dateKey db.order_sequence).getD 0 + 1))
                body],
          sale_items :=
            db.sale_items ++ body.items.enum.map (saleItemRowOf ids (ids 0)),
          payments :=
            db.payments ++
              body.payments.enum.map (paymentRowOf ids body.items.length (ids 0)),
          outbox_queue :=
            db.outbox_queue ++
              [newOutboxRow (db.outbox_queue.length + 1) "sale" (ids 0) "create"
                body.encode (some (ids 0)) 10] },
       Except.ok
         { id := ids 0,
           receiptNumber :=
             receiptString dateKey ((seqLookup dateKey db.order_sequence).getD 0 + 1),
           status := "COMPLETED", total := body.total }) := by
  unfold postSales transaction salesTxBody
  rw [nextReceiptNumber_eq]
/-- C1: a successful POST /api/sales inserts the sale row, its sale_items and
payments rows, and exactly one outbox_queue row whose entity_id is the new
sale id and whose action is create, all in the one transaction that commits
them together; and for any transaction whose body throws, the state rolls
back to the input state, so neither business rows nor any outbox row
exist. -/
theorem C1_sale_and_outbox_row_committed_atomically
    (ids : Nat → String) (tenant location dateKey : String)
    (body : SaleBody) (db : HubDb) :
    (∃ (resp : SaleResponse) (sale : SaleRow) (ob : OutboxItem),
      (postSales ids tenant location dateKey body db).2 = Except.ok resp ∧
      resp.status = "COMPLETED" ∧
      (postSales ids tenant location dateKey body db).1.sales = db.sales ++ [sale] ∧
      sale.id = resp.id ∧ sale.receipt_number = resp.receiptNumber ∧
      sale.status = "COMPLETED" ∧
      (∃ items, (postSales ids tenant location dateKey body db).1.sale_items =
          db.sale_items ++ items ∧
        items.length = body.items.length ∧ ∀ r ∈ items, r.sale_id = resp.id) ∧
      (∃ pays, (postSales ids tenant location dateKey body db).1.payments =
          db.payments ++ pays ∧
        pays.length = body.payments.length ∧ ∀ r ∈ pays, r.sale_id = resp.id) ∧
      (postSales ids tenant location dateKey body db).1.outbox_queue =
        db.outbox_queue ++ [ob] ∧
      ob.entity_type = "sale" ∧ ob.entity_id = resp.id ∧ ob.action = "create" ∧
      ob.payload = body.encode ∧ ob.correlation_id = some resp.id ∧
      ob.priority = 10 ∧ ob.status = OutboxStatus.PENDING ∧ ob.attempts = 0) ∧
    (∀ (α : Type) (fn : HubDb → Except String (HubDb × α)) (db0 : HubDb) (e : String),
      fn db0 = Except.error e → transaction fn db0 = (db0, Except.error e)) := by
  constructor
  · rw [postSales_components]
    refine ⟨_, _, _, rfl, rfl, rfl, rfl, rfl, rfl, ⟨_, rfl, ?_, ?_⟩, ⟨_, rfl, ?_, ?_⟩,
      rfl, rfl, rfl, rfl, rfl, rfl, rfl, rfl, rfl⟩
    · simp
    · intro r hr
      obtain ⟨p, _, rfl⟩ := List.mem_map.mp hr
      rfl
    · simp
    · intro r hr
      obtain ⟨p, _, rfl⟩ := List.mem_map.mp hr
      rfl
  · intro α fn db0 e hfail
    unfold transaction
    rw [hfail]

/-- Witness for C1: the S1 scenario body (one item, one cash payment) against
the empty store commits one sale, one item, one payment and exactly one
outbox row sale/create, and a transaction body that throws leaves the store
unchanged. -/
theorem C1_witness :
    (∃ (resp : SaleResponse) (sale : SaleRow) (ob : OutboxItem),
      (postSales (fun n => "id" ++ toString n) "t1" "l1" "20260101"
          { terminalId := none, orderType := none, total := 10,
            items := [{ productId := "p1", quantity := 1, unitPrice := 10, total := 10 }],
            payments := [{ method := "CASH", amount := 10 }] } emptyDb).2 =
        Except.ok resp ∧
      resp.status = "COMPLETED" ∧
      (postSales (fun n => "id" ++ toString n) "t1" "l1" "20260101"
          { terminalId := none, orderType := none, total := 10,
            items := [{ productId := "p1", quantity := 1, unitPrice := 10, total := 10 }],
            payments := [{ method := "CASH", amount := 10 }] } emptyDb).1.sales =
        emptyDb.sales ++ [sale] ∧
      sale.id = resp.id ∧ sale.receipt_number = resp.receiptNumber ∧
      sale.status = "COMPLETED" ∧
      (∃ items, (postSales (fun n => "id" ++ toString n) "t1" "l1" "20260101"
          { terminalId := none, orderType := none, total := 10,
            items := [{ productId := "p1", quantity := 1, unitPrice := 10, total := 10 }],
            payments := [{ method := "CASH", amount := 10 }] } emptyDb).1.sale_items =
          emptyDb.sale_items ++ items ∧
        items.length = 1 ∧ ∀ r ∈ items, r.sale_id = resp.id) ∧
      (∃ pays, (postSales (fun n => "id" ++ toString n) "t1" "l1" "20260101"
          { terminalId := none, orderType := none, total := 10,
            items := [{ productId := "p1", quantity := 1, unitPrice := 10, total := 10 }],
            payments := [{ method := "CASH", amount := 10 }] } emptyDb).1.payments =
          emptyDb.payments ++ pays ∧
        pays.length = 1 ∧ ∀ r ∈ pays, r.sale_id = resp.id) ∧
      (postSales (fun n => "id" ++ toString n) "t1" "l1" "20260101"
          { terminalId := none, orderType := none, total := 10,
            items := [{ productId := "p1", quantity := 1, unitPrice := 10, total := 10 }],
            payments := [{ method := "CASH", amount := 10 }] } emptyDb).1.outbox_queue =
        emptyDb.outbox_queue ++ [ob] ∧
      ob.entity_type = "sale" ∧ ob.entity_id = resp.id ∧ ob.action = "create" ∧
      ob.payload = SaleBody.encode
        { terminalId := none, orderType := none, total := 10,
          items := [{ productId := "p1", quantity := 1, unitPrice := 10, total := 10 }],
          payments := [{ method := "CASH", amount := 10 }] } ∧
      ob.correlation_id = some resp.id ∧
      ob.priority = 10 ∧ ob.status = OutboxStatus.PENDING ∧ ob.attempts = 0) ∧
    transaction (fun _ => (Except.error "boom" : Except String (HubDb × Unit))) emptyDb =
      (emptyDb, Except.error "boom") := by
  have h := C1_sale_and_outbox_row_committed_atomically
    (fun n => "id" ++ toString n) "t1" "l1" "20260101"
    { terminalId := none, orderType := none, total := 10,
      items := [{ productId := "p1", quantity := 1, unitPrice := 10, total := 10 }],
      payments := [{ method := "CASH", amount := 10 }] } emptyDb
  exact ⟨h.1, h.2 Unit (fun _ => Except.error "boom") emptyDb "boom" rfl⟩

/-! ## Receipt number lemmas -/

/-- Digit characters decode back to their value. -/
theorem digitChar_toNat : ∀ d, d < 10 → (digitChar d).toNat = 48 + d := by decide

/-- Leading zeros do not change the decoded value. -/
theorem digitsToNat_replicate_zero (k : Nat) (l : List Char) :
    digitsToNat (List.replicate k '0' ++ l) = digitsToNat l := by
  have hz : ∀ k, List.foldl (fun a c => 10 * a + (c.toNat - 48)) 0
      (List.replicate k '0') = 0 := by
    intro k
    induction k with
    | zero => rfl
    | succ n ih => rw [List.replicate_succ, List.foldl_cons]; simpa using ih
  unfold digitsToNat
  rw [List.foldl_append, hz]

/-- Decoding inverts the digit expansion whenever the fuel suffices. -/
theorem digitsToNat_natToDigitsAux :
    ∀ fuel n, n < fuel → digitsToNat (natToDigitsAux fuel n) = n := by
  intro fuel
  induction fuel with
  | zero => intro n h; omega
  | succ f ih =>
      intro n h
      show digitsToNat
        (if n < 10 then [digitChar n]
         else natToDigitsAux f (n / 10) ++ [digitChar (n % 10)]) = n
      by_cases h10 : n < 10
      · rw [if_pos h10]
        unfold digitsToNat
        rw [List.foldl_cons, List.foldl_nil, digitChar_toNat n h10]
        omega
      · rw [if_neg h10]
        unfold digitsToNat
        rw [List.foldl_append]
        have hdivlt : n / 10 < n := Nat.div_lt_self (by omega) (by omega)
        have hdiv := ih (n / 10) (by omega)
        unfold digitsToNat at hdiv
        rw [hdiv, List.foldl_cons, List.foldl_nil,
          digitChar_toNat (n % 10) (Nat.mod_lt n (by omega))]
        omega

/-- Decoding is a left inverse of the decimal rendering. -/
theorem digitsToNat_natToDigits : ∀ n, digitsToNat (natToDigits n) = n := by
  intro n
  exact digitsToNat_natToDigitsAux (n + 1) n (by omega)

/-- The numeric suffix of a minted receipt number is the counter value it was
formatted from. -/
theorem receiptValue_receiptString (dateKey : String) (v : Nat) :
    receiptValue dateKey (receiptString dateKey v) = v := by
  unfold receiptValue receiptString padStart4 natToString
  rw [String.data_append, String.data_append, String.data_append]
  rw [show ("-" : String).data = ['-'] from rfl]
  rw [show (String.mk (natToDigits v)).data = natToDigits v from rfl]
  rw [show dateKey.data ++ ['-'] ++
      (List.replicate (4 - (String.mk (natToDigits v)).length) '0' ++ natToDigits v) =
      (dateKey.data ++ ['-']) ++
      (List.replicate (4 - (String.mk (natToDigits v)).length) '0' ++ natToDigits v)
    from by simp]
  rw [List.drop_left' (by simp)]
  rw [digitsToNat_replicate_zero]
  exact digitsToNat_natToDigits v

/-- Reading back the counter just stored for a date key. -/
theorem seqLookup_seqStore (dateKey : String) (v : Nat) (m : List (String × Nat)) :
    seqLookup dateKey (seqStore dateKey v m) = some v := by
  unfold seqStore
  by_cases hf : (m.find? (fun p => p.1 = dateKey)).isSome
  · rw [if_pos hf]
    unfold seqLookup
    induction m with
    | nil => simp at hf
    | cons p m' ih =>
        by_cases hp : p.1 = dateKey
        · rw [List.map_cons, if_pos hp,
            List.find?_cons_of_pos _ (by simp)]
          rfl
        · rw [List.map_cons, if_neg hp,
            List.find?_cons_of_neg _ (by simpa using hp)]
          rw [List.find?_cons_of_neg _ (by simpa using hp)] at hf
          exact ih hf
  · rw [if_neg hf]
    unfold seqLookup
    rw [List.find?_cons_of_pos _ (by simp)]
    rfl

/-- The list of n receipt numbers minted in sequence formats the counter
values previous + 1, previous + 2, ..., previous + n in order. -/
theorem receiptCalls_results (dateKey : String) :
    ∀ (n : Nat) (db : HubDb),
      (receiptCalls dateKey db n).2 =
        (List.range n).map (fun i =>
          receiptString dateKey ((seqLookup dateKey db.order_sequence).getD 0 + i + 1)) := by
  intro n
  induction n with
  | zero => intro db; rfl
  | succ k ih =>
      intro db
      show ((receiptCalls dateKey (nextReceiptNumber dateKey db).1 k).1,
        (nextReceiptNumber dateKey db).2 ::
          (receiptCalls dateKey (nextReceiptNumber dateKey db).1 k).2).2 = _
      rw [List.range_succ_eq_map, List.map_cons]
      have hnext := nextReceiptNumber_eq dateKey db
      rw [ih (nextReceiptNumber dateKey db).1]
      rw [show (nextReceiptNumber dateKey db).2 =
        receiptString dateKey ((seqLookup dateKey db.order_sequence).getD 0 + 1)
        from by rw [hnext]]
      rw [show (nextReceiptNumber dateKey db).1.order_sequence =
        seqStore dateKey ((seqLookup dateKey db.order_sequence).getD 0 + 1)
          db.order_sequence from by rw [hnext]]
      rw [seqLookup_seqStore]
      rw [List.map_map]
      refine congrArg₂ List.cons ?_ ?_
      · rw [show (seqLookup dateKey db.order_sequence).getD 0 + 0 + 1 =
          (seqLookup dateKey db.order_sequence).getD 0 + 1 from by omega]
      · apply List.map_congr_left
        intro i _
        show receiptString dateKey ((Option.getD (some _) 0) + i + 1) = _
        rw [show Option.getD (some ((seqLookup dateKey db.order_sequence).getD 0 + 1)) 0 + i + 1 =
          (seqLookup dateKey db.order_sequence).getD 0 + (i + 1) + 1 from by
            rw [Option.getD]; omega]
        rfl

/-- C6: n sequential nextReceiptNumber calls on a date key with no previous
counter return the n values dateKey-NNNN formatted from 1, 2, ..., n in call
order: the values are pairwise distinct and their numeric suffixes form the
contiguous range 1..n. The increment is the single atomic upsert on
order_sequence, which SQLite serializes, so concurrent calls compose as this
sequence does. -/
theorem C6_receipt_numbers_distinct_and_contiguous
    (dateKey : String) (db : HubDb) (n : Nat)
    (hfresh : seqLookup dateKey db.order_sequence = none) (hn : 1 ≤ n) :
    (receiptCalls dateKey db n).2 =
      (List.range n).map (fun i => receiptString dateKey (i + 1)) ∧
    ((receiptCalls dateKey db n).2).Nodup ∧
    ((receiptCalls dateKey db n).2).map (receiptValue dateKey) =
      (List.range n).map (fun i => i + 1) ∧
    (receiptCalls dateKey db n).2.length = n := by
  have hres := receiptCalls_results dateKey n db
  rw [hfresh] at hres
  simp only [Option.getD_none, Nat.zero_add] at hres
  have hvals : ((receiptCalls dateKey db n).2).map (receiptValue dateKey) =
      (List.range n).map (fun i => i + 1) := by
    rw [hres, List.map_map]
    apply List.map_congr_left
    intro i _
    exact receiptValue_receiptString dateKey (i + 1)
  refine ⟨hres, ?_, hvals, by rw [hres]; simp⟩
  have hnd : (((receiptCalls dateKey db n).2).map (receiptValue dateKey)).Nodup := by
    rw [hvals]
    exact List.Nodup.map (fun a b h => by omega) (List.nodup_range n)
  exact List.Nodup.of_map _ hnd

/-- Witness for C6: three calls on a fresh date key mint 20260101-0001,
20260101-0002, 20260101-0003, distinct with suffixes 1, 2, 3. -/
theorem C6_witness :
    (receiptCalls "20260101" emptyDb 3).2 =
      ["20260101-0001", "20260101-0002", "20260101-0003"] ∧
    ((receiptCalls "20260101" emptyDb 3).2).Nodup ∧
    ((receiptCalls "20260101" emptyDb 3).2).map (receiptValue "20260101") = [1, 2, 3] := by
  have h := C6_receipt_numbers_distinct_and_contiguous "20260101" emptyDb 3 rfl
    (by decide)
  refine ⟨?_, h.2.1, ?_⟩
  · rw [h.1]
    rfl
  · rw [h.2.2.1]
    rfl

/-! ## Rate limiter lemmas -/

/-- Reading back the bucket just stored for an ip. -/
theorem rateGet_rateSet (ip : String) (e : RateEntry) (m : RateMap) :
    rateGet ip (rateSet ip e m) = some e := by
  unfold rateSet
  by_cases hf : (m.find? (fun p => p.1 = ip)).isSome
  · rw [if_pos hf]
    unfold rateGet
    induction m with
    | nil => simp at hf
    | cons p m' ih =>
        by_cases hp : p.1 = ip
        · rw [List.map_cons, if_pos hp, List.find?_cons_of_pos _ (by simp)]
          rfl
        · rw [List.map_cons, if_neg hp, List.find?_cons_of_neg _ (by simpa using hp)]
          rw [List.find?_cons_of_neg _ (by simpa using hp)] at hf
          exact ih hf
  · rw [if_neg hf]
    unfold rateGet
    rw [List.find?_cons_of_pos _ (by simp)]
    rfl

/-- A well-formed attempt always leaves the map checkPinRateLimit produced,
whatever the limiter decided and whether or not the PIN matched. -/
theorem authPinAttempt_map (now : Nat) (ip pin : String) (mu : Option String)
    (m : RateMap) (hwf : ¬ (pin.length < 4 ∨ 10 < pin.length)) :
    (authPinAttempt now ip pin mu m).1 = (checkPinRateLimit now ip m).1 := by
  unfold authPinAttempt
  rw [if_neg hwf]
  cases mu <;> by_cases hall : (checkPinRateLimit now ip m).2 = false <;> simp [hall]

/-- checkPinRateLimit on a missing bucket: fresh bucket with count 1 and the
reset time one window ahead; the attempt is allowed. -/
theorem checkPinRateLimit_fresh (now : Nat) (ip : String) (m : RateMap)
    (hget : rateGet ip m = none) :
    checkPinRateLimit now ip m =
      (rateSet ip { count := 1, resetAt := now + PIN_RATE_WINDOW_MS } m, true) := by
  unfold checkPinRateLimit
  rw [hget]

/-- checkPinRateLimit strictly inside the window: the count goes up by one,
the reset time is kept, and the attempt is allowed iff the new count is
within the limit. -/
theorem checkPinRateLimit_within (now : Nat) (ip : String) (m : RateMap)
    (e : RateEntry) (hget : rateGet ip m = some e) (hwin : now < e.resetAt) :
    checkPinRateLimit now ip m =
      (rateSet ip { count := e.count + 1, resetAt := e.resetAt } m,
       decide (e.count + 1 ≤ PIN_RATE_LIMIT)) := by
  unfold checkPinRateLimit
  rw [hget]
  show (if e.resetAt ≤ now then _ else _) = _
  rw [if_neg (by omega)]

/-- Well-formed attempts that all fall strictly before the reset time add
their number to the count of the bucket and keep its reset time. -/
theorem runAttempts_count (ip : String) (R : Nat) :
    ∀ (l : List AttemptInput) (m : RateMap) (c : Nat),
      rateGet ip m = some { count := c, resetAt := R } →
      (∀ a ∈ l, (4 ≤ a.pin.length ∧ a.pin.length ≤ 10) ∧ a.time < R) →
      rateGet ip (runAttempts ip m l) = some { count := c + l.length, resetAt := R } := by
  intro l
  induction l with
  | nil => intro m c hget _; simpa using hget
  | cons a rest ih =>
      intro m c hget hall
      have ha := hall a (by simp)
      show rateGet ip (runAttempts ip (authPinAttempt a.time ip a.pin a.matchedUser m).1 rest) = _
      rw [authPinAttempt_map a.time ip a.pin a.matchedUser m (by omega)]
      rw [checkPinRateLimit_within a.time ip m _ hget (by exact ha.2)]
      have hnext := ih (rateSet ip { count := c + 1, resetAt := R } m) (c + 1)
        (rateGet_rateSet ip _ m) (fun b hb => hall b (by simp [hb]))
      rw [hnext]
      refine congrArg some ?_
      show ({ count := c + 1 + rest.length, resetAt := R } : RateEntry) = _
      rw [show c + 1 + rest.length = c + (a :: rest).length from by simp; omega]

/-- C7: after ten well-formed PIN attempts from one ip inside the five-minute
window that the first of them opened, the eleventh attempt from that ip is
answered 429 by the limiter, whatever PIN it carries and whether or not the
bcrypt scan would match a user; the bucket then reads count 10 before the
eleventh attempt. -/
theorem C7_eleventh_pin_attempt_gets_429
    (ip : String) (m0 : RateMap) (first a11 : AttemptInput)
    (rest : List AttemptInput)
    (hfresh : rateGet ip m0 = none)
    (hwf1 : 4 ≤ first.pin.length ∧ first.pin.length ≤ 10)
    (hrest : ∀ a ∈ rest, (4 ≤ a.pin.length ∧ a.pin.length ≤ 10) ∧
      a.time < first.time + PIN_RATE_WINDOW_MS)
    (hten : (first :: rest).length = 10)
    (hwf11 : 4 ≤ a11.pin.length ∧ a11.pin.length ≤ 10)
    (ht11 : a11.time < first.time + PIN_RATE_WINDOW_MS) :
    rateGet ip (runAttempts ip m0 (first :: rest)) =
      some { count := 10, resetAt := first.time + PIN_RATE_WINDOW_MS } ∧
    (authPinAttempt a11.time ip a11.pin a11.matchedUser
      (runAttempts ip m0 (first :: rest))).2 = PinOutcome.tooManyAttempts := by
  have h1 :
      rateGet ip (runAttempts ip m0 (first :: rest)) =
        some { count := 10, resetAt := first.time + PIN_RATE_WINDOW_MS } := by
    show rateGet ip
      (runAttempts ip (authPinAttempt first.time ip first.pin first.matchedUser m0).1 rest) = _
    rw [authPinAttempt_map first.time ip first.pin first.matchedUser m0 (by omega)]
    rw [checkPinRateLimit_fresh first.time ip m0 hfresh]
    have := runAttempts_count ip (first.time + PIN_RATE_WINDOW_MS) rest
      (rateSet ip { count := 1, resetAt := first.time + PIN_RATE_WINDOW_MS } m0) 1
      (rateGet_rateSet ip _ m0) hrest
    rw [this]
    refine congrArg some ?_
    show ({ count := 1 + rest.length, resetAt := _ } : RateEntry) = _
    rw [show 1 + rest.length = 10 from by simp at hten; omega]
  refine ⟨h1, ?_⟩
  unfold authPinAttempt
  rw [if_neg (by omega)]
  rw [checkPinRateLimit_within a11.time ip _ _ h1 (by exact ht11)]
  rfl

/-- Witness for C7: eleven concrete attempts from ip 10.0.0.9 inside one
window; the eleventh returns the 429 outcome although its PIN would match a
user. -/
theorem C7_witness :
    (authPinAttempt 600 "10.0.0.9" "1234" (some "u1")
      (runAttempts "10.0.0.9" []
        ({ time := 0, pin := "9999", matchedUser := none } ::
          List.replicate 9 { time := 60, pin := "9999", matchedUser := none }))).2 =
      PinOutcome.tooManyAttempts := by
  have h := C7_eleventh_pin_attempt_gets_429 "10.0.0.9" []
    { time := 0, pin := "9999", matchedUser := none }
    { time := 600, pin := "1234", matchedUser := some "u1" }
    (List.replicate 9 { time := 60, pin := "9999", matchedUser := none })
    rfl (by decide)
    (by
      intro a ha
      rw [List.eq_of_mem_replicate ha]
      exact ⟨by decide, by decide⟩)
    (by decide) (by decide) (by decide)
  exact h.2

/-! ## Kitchen bump lemmas -/

/-- Component form of a successful bump. -/
theorem bumpKitchenOrder_step (now : Nat) (oid : String) (db : HubDb)
    (o : KitchenOrderRow) (nxt : String)
    (hfind : db.kitchen_orders.find? (fun r => r.id = oid) = some o)
    (hflow : statusFlow o.status = some nxt) :
    bumpKitchenOrder now oid db =
      ({ db with
          kitchen_orders := db.kitchen_orders.map (fun r =>
            if r.id = oid then bumpOrderUpdate now nxt r else r),
          kitchen_order_items := db.kitchen_order_items.map (bumpItemUpdate oid nxt),
          outbox_queue :=
            db.outbox_queue ++
              [newOutboxRow (db.outbox_queue.length + 1) "kitchen_order" oid
                "update" (bumpPayload oid nxt) none 5] },
       BumpResult.bumped o.status nxt,
       [{ event := "order:status", orderId := oid, status := nxt }]) := by
  unfold bumpKitchenOrder
  rw [hfind]
  simp only [hflow]

/-- A bump on an order whose status has no successor (COMPLETED, CANCELLED,
or any other value outside the flow) changes nothing, enqueues nothing and
broadcasts nothing. -/
theorem bumpKitchenOrder_refused (now : Nat) (oid : String) (db : HubDb)
    (o : KitchenOrderRow)
    (hfind : db.kitchen_orders.find? (fun r => r.id = oid) = some o)
    (hflow : statusFlow o.status = none) :
    bumpKitchenOrder now oid db =
      (db, BumpResult.cannotBump ("Cannot bump from status " ++ o.status), []) := by
  unfold bumpKitchenOrder
  rw [hfind]
  simp only [hflow]

/-- The bump UPDATE rewrites the found row in place: looking the order up
afterwards returns the advanced row. -/
theorem find?_map_bumpOrderUpdate (now : Nat) (nxt oid : String) :
    ∀ (l : List KitchenOrderRow) (o : KitchenOrderRow),
      l.find? (fun r => r.id = oid) = some o →
      (l.map (fun r => if r.id = oid then bumpOrderUpdate now nxt r else r)).find?
          (fun r => r.id = oid) = some (bumpOrderUpdate now nxt o) := by
  intro l
  induction l with
  | nil => intro o h; simp at h
  | cons r l' ih =>
      intro o h
      by_cases hr : r.id = oid
      · rw [List.find?_cons_of_pos _ (by simpa using hr)] at h
        cases h
        rw [List.map_cons, if_pos hr,
          List.find?_cons_of_pos _ (by simpa using hr)]
      · rw [List.find?_cons_of_neg _ (by simpa using hr)] at h
        rw [List.map_cons, if_neg hr,
          List.find?_cons_of_neg _ (by simpa using hr)]
        exact ih o h

/-- C8: three bumps starting from PENDING advance the order along
PENDING, PREPARING (fired_at set), READY, COMPLETED (completed_at set); every
successful bump appends exactly one kitchen_order/update outbox row and
returns exactly one order:status broadcast emitted after its transaction; a
fourth bump answers success false with the cannot-bump message and leaves the
state untouched with no outbox row and no broadcast. -/
theorem C8_bump_advances_pending_preparing_ready_completed
    (t1 t2 t3 t4 : Nat) (oid : String) (db : HubDb) (o : KitchenOrderRow)
    (hfind : db.kitchen_orders.find? (fun r => r.id = oid) = some o)
    (ho : o.status = "PENDING") :
    ∃ db1 db2 db3,
      bumpKitchenOrder t1 oid db =
        (db1, BumpResult.bumped "PENDING" "PREPARING",
         [{ event := "order:status", orderId := oid, status := "PREPARING" }]) ∧
      db1.outbox_queue =
        db.outbox_queue ++
          [newOutboxRow (db.outbox_queue.length + 1) "kitchen_order" oid "update"
            (bumpPayload oid "PREPARING") none 5] ∧
      (∃ o1, db1.kitchen_orders.find? (fun r => r.id = oid) = some o1 ∧
        o1.status = "PREPARING" ∧ o1.fired_at = some t1) ∧
      bumpKitchenOrder t2 oid db1 =
        (db2, BumpResult.bumped "PREPARING" "READY",
         [{ event := "order:status", orderId := oid, status := "READY" }]) ∧
      db2.outbox_queue =
        db1.outbox_queue ++
          [newOutboxRow (db1.outbox_queue.length + 1) "kitchen_order" oid "update"
            (bumpPayload oid "READY") none 5] ∧
      bumpKitchenOrder t3 oid db2 =
        (db3, BumpResult.bumped "READY" "COMPLETED",
         [{ event := "order:status", orderId := oid, status := "COMPLETED" }]) ∧
      db3.outbox_queue =
        db2.outbox_queue ++
          [newOutboxRow (db2.outbox_queue.length + 1) "kitchen_order" oid "update"
            (bumpPayload oid "COMPLETED") none 5] ∧
      (∃ o3, db3.kitchen_orders.find? (fun r => r.id = oid) = some o3 ∧
        o3.status = "COMPLETED" ∧ o3.fired_at = some t1 ∧ o3.completed_at = some t3) ∧
      bumpKitchenOrder t4 oid db3 =
        (db3, BumpResult.cannotBump "Cannot bump from status COMPLETED", []) := by
  have h1 := bumpKitchenOrder_step t1 oid db o "PREPARING" hfind (by rw [ho]; rfl)
  have hf1 : (bumpKitchenOrder t1 oid db).1.kitchen_orders.find? (fun r => r.id = oid) =
      some (bumpOrderUpdate t1 "PREPARING" o) := by
    rw [h1]
    exact find?_map_bumpOrderUpdate t1 "PREPARING" oid db.kitchen_orders o hfind
  have h2 := bumpKitchenOrder_step t2 oid (bumpKitchenOrder t1 oid db).1
    (bumpOrderUpdate t1 "PREPARING" o) "READY" hf1 rfl
  have hf2 : (bumpKitchenOrder t2 oid (bumpKitchenOrder t1 oid db).1).1.kitchen_orders.find?
      (fun r => r.id = oid) =
      some (bumpOrderUpdate t2 "READY" (bumpOrderUpdate t1 "PREPARING" o)) := by
    rw [h2]
    exact find?_map_bumpOrderUpdate t2 "READY" oid _ _ hf1
  have h3 := bumpKitchenOrder_step t3 oid
    (bumpKitchenOrder t2 oid (bumpKitchenOrder t1 oid db).1).1
    (bumpOrderUpdate t2 "READY" (bumpOrderUpdate t1 "PREPARING" o)) "COMPLETED" hf2 rfl
  have hf3 : (bumpKitchenOrder t3 oid
      (bumpKitchenOrder t2 oid (bumpKitchenOrder t1 oid db).1).1).1.kitchen_orders.find?
      (fun r => r.id = oid) =
      some (bumpOrderUpdate t3 "COMPLETED"
        (bumpOrderUpdate t2 "READY" (bumpOrderUpdate t1 "PREPARING" o))) := by
    rw [h3]
    exact find?_map_bumpOrderUpdate t3 "COMPLETED" oid _ _ hf2
  have h4 := bumpKitchenOrder_refused t4 oid
    (bumpKitchenOrder t3 oid
      (bumpKitchenOrder t2 oid (bumpKitchenOrder t1 oid db).1).1).1
    (bumpOrderUpdate t3 "COMPLETED"
      (bumpOrderUpdate t2 "READY" (bumpOrderUpdate t1 "PREPARING" o))) hf3 rfl
  refine ⟨(bumpKitchenOrder t1 oid db).1,
    (bumpKitchenOrder t2 oid (bumpKitchenOrder t1 oid db).1).1,
    (bumpKitchenOrder t3 oid
      (bumpKitchenOrder t2 oid (bumpKitchenOrder t1 oid db).1).1).1,
    ?_, ?_, ?_, ?_, ?_, ?_, ?_, ?_, ?_⟩
  · rw [h1, ho]
  · rw [h1]
  · exact ⟨bumpOrderUpdate t1 "PREPARING" o, hf1, rfl, rfl⟩
  · rw [h2]
    rfl
  · rw [h2, h1]
  · rw [h3]
    rfl
  · rw [h3, h2]
  · exact ⟨bumpOrderUpdate t3 "COMPLETED"
      (bumpOrderUpdate t2 "READY" (bumpOrderUpdate t1 "PREPARING" o)), hf3, rfl, rfl, rfl⟩
  · rw [h4]
    rfl

/-- Witness for C8: a concrete PENDING order bumped four times walks
PREPARING, READY, COMPLETED and then refuses with success false and no
broadcast. -/
theorem C8_witness :
    (bumpKitchenOrder 1 "k1"
      { emptyDb with kitchen_orders :=
          [{ id := "k1", status := "PENDING", fired_at := none,
             completed_at := none, sync_status := "SYNCED" }] }).2.1 =
      BumpResult.bumped "PENDING" "PREPARING" ∧
    (bumpKitchenOrder 2 "k1"
      (bumpKitchenOrder 1 "k1"
        { emptyDb with kitchen_orders :=
            [{ id := "k1", status := "PENDING", fired_at := none,
               completed_at := none, sync_status := "SYNCED" }] }).1).2.1 =
      BumpResult.bumped "PREPARING" "READY" ∧
    (bumpKitchenOrder 3 "k1"
      (bumpKitchenOrder 2 "k1"
        (bumpKitchenOrder 1 "k1"
          { emptyDb with kitchen_orders :=
              [{ id := "k1", status := "PENDING", fired_at := none,
                 completed_at := none, sync_status := "SYNCED" }] }).1).1).2.1 =
      BumpResult.bumped "READY" "COMPLETED" ∧
    (bumpKitchenOrder 4 "k1"
      (bumpKitchenOrder 3 "k1"
        (bumpKitchenOrder 2 "k1"
          (bumpKitchenOrder 1 "k1"
            { emptyDb with kitchen_orders :=
                [{ id := "k1", status := "PENDING", fired_at := none,
                   completed_at := none, sync_status := "SYNCED" }] }).1).1).1).2 =
      (BumpResult.cannotBump "Cannot bump from status COMPLETED", []) := by
  obtain ⟨db1, db2, db3, a1, _, _, a4, _, a6, _, _, a9⟩ :=
    C8_bump_advances_pending_preparing_ready_completed 1 2 3 4 "k1"
      { emptyDb with kitchen_orders :=
          [{ id := "k1", status := "PENDING", fired_at := none,
             completed_at := none, sync_status := "SYNCED" }] }
      { id := "k1", status := "PENDING", fired_at := none,
        completed_at := none, sync_status := "SYNCED" }
      rfl rfl
  have e1 : (bumpKitchenOrder 1 "k1"
      { emptyDb with kitchen_orders :=
          [{ id := "k1", status := "PENDING", fired_at := none,
             completed_at := none, sync_status := "SYNCED" }] }).1 = db1 := by rw [a1]
  have e2 : (bumpKitchenOrder 2 "k1" db1).1 = db2 := by rw [a4]
  have e3 : (bumpKitchenOrder 3 "k1" db2).1 = db3 := by rw [a6]
  refine ⟨by rw [a1], by rw [e1, a4], by rw [e1, e2, a6], by rw [e1, e2, e3, a9]⟩

/-- C9 counterexample: on a concrete store with one user and that user
cached, a successful PIN change via the admin route leaves the recent-user
cache exactly as it was: the stale entry is still there and the cache is not
empty, refuting the claim that the route clears it. -/
theorem C9_counterexample_cache_survives_pin_change :
    (changePin "t1" "u1" "h2" "p"
        { emptyDb with
            users := [{ id := "u1", tenant_id := "t1", pin_hash := some "h1", is_active := true }] }
        ["u1"]).2.2 = ChangePinResult.success ∧
    (changePin "t1" "u1" "h2" "p"
        { emptyDb with
            users := [{ id := "u1", tenant_id := "t1", pin_hash := some "h1", is_active := true }] }
        ["u1"]).2.1 = ["u1"] ∧
    (changePin "t1" "u1" "h2" "p"
        { emptyDb with
            users := [{ id := "u1", tenant_id := "t1", pin_hash := some "h1", is_active := true }] }
        ["u1"]).2.1 ≠ [] := by
  refine ⟨rfl, rfl, by decide⟩

/-- C9 amended: the change-pin route updates the pin hash and enqueues one
outbox row inside its transaction, but it never touches the recent-user
cache, which it returns unchanged for every input; the cache itself stays
bounded by MAX_RECENT_USERS under recordRecentUser. Stale cached ids are
harmless for authentication because the auth route reloads every pin hash
from the users table on each attempt. -/
theorem C9_change_pin_leaves_recent_user_cache_unchanged
    (tenant userId pinHash payload : String) (db : HubDb) (cache : List String) :
    (changePin tenant userId pinHash payload db cache).2.1 = cache ∧
    (∀ u, db.users.find? (fun v => v.id = userId ∧ v.tenant_id = tenant) = some u →
      (changePin tenant userId pinHash payload db cache).2.2 = ChangePinResult.success ∧
      (changePin tenant userId pinHash payload db cache).1.users =
        db.users.map (fun v => if v.id = userId then { v with pin_hash := some pinHash } else v) ∧
      (changePin tenant userId pinHash payload db cache).1.outbox_queue =
        db.outbox_queue ++
          [newOutboxRow (db.outbox_queue.length + 1) "user" userId "update_pin"
            payload none 5]) ∧
    (∀ (uid : String) (c : List String), c.length ≤ MAX_RECENT_USERS →
      (recordRecentUser uid c).length ≤ MAX_RECENT_USERS) := by
  refine ⟨?_, ?_, ?_⟩
  · unfold changePin
    cases db.users.find? (fun v => v.id = userId ∧ v.tenant_id = tenant) <;> rfl
  · intro u hu
    unfold changePin
    rw [hu]
    exact ⟨rfl, rfl, rfl⟩
  · intro uid c hc
    unfold recordRecentUser
    by_cases hlong : MAX_RECENT_USERS < (uid :: c.erase uid).length
    · rw [if_pos hlong]
      rw [List.length_dropLast]
      have := List.length_erase_le uid c
      simp only [List.length_cons]
      omega
    · rw [if_neg hlong]
      omega

/-- Witness for C9 amended: concrete one-user store, cache with one entry;
the route succeeds and returns the cache unchanged, and recording a sixth
user keeps the bound. -/
theorem C9_witness :
    (changePin "t1" "u1" "h2" "p"
        { emptyDb with
            users := [{ id := "u1", tenant_id := "t1", pin_hash := some "h1", is_active := true }] }
        ["u9"]).2.1 = ["u9"] ∧
    (changePin "t1" "u1" "h2" "p"
        { emptyDb with
            users := [{ id := "u1", tenant_id := "t1", pin_hash := some "h1", is_active := true }] }
        ["u9"]).2.2 = ChangePinResult.success ∧
    (recordRecentUser "u6" ["u1", "u2", "u3", "u4", "u5"]).length ≤ MAX_RECENT_USERS := by
  have h := C9_change_pin_leaves_recent_user_cache_unchanged "t1" "u1" "h2" "p"
    { emptyDb with
        users := [{ id := "u1", tenant_id := "t1", pin_hash := some "h1", is_active := true }] }
    ["u9"]
  exact ⟨h.1,
    (h.2.1 { id := "u1", tenant_id := "t1", pin_hash := some "h1", is_active := true } rfl).1,
    h.2.2 "u6" ["u1", "u2", "u3", "u4", "u5"] (by decide)⟩

/-! ## Pull engine lemmas -/

/-- A 404 response is never reported ok by the cloud client. -/
theorem pullOk_404 (r : PullResp) (h : r.status = 404) : pullOk r = false := by
  simp [pullOk, h]

/-- Every step of the cycle loop appends exactly one per-entity outcome,
whether the handler returned or threw. -/
theorem runPlanStep_length (resp : String → PullResp) (terminals : Nat)
    (acc : List PullOutcome × List (String × SyncRow)) (e : String × HandlerKind) :
    (runPlanStep resp terminals acc e).1.length = acc.1.length + 1 := by
  unfold runPlanStep
  cases runHandler e.2 e.1 (resp e.1) terminals acc.2 <;> simp

/-- The cycle never aborts: it produces one per-entity outcome for every
entity of the plan, whatever the cloud answers. -/
theorem runPlan_length (resp : String → PullResp) (terminals : Nat) :
    ∀ (plan : List (String × HandlerKind)) (acc : List PullOutcome × List (String × SyncRow)),
      (plan.foldl (runPlanStep resp terminals) acc).1.length = acc.1.length + plan.length := by
  intro plan
  induction plan with
  | nil => intro acc; simp
  | cons e plan' ih =>
      intro acc
      rw [List.foldl_cons, ih, runPlanStep_length]
      simp
      omega

/-- C4 counterexample: the claim fails at the products handler, which is in
the pull plan and, being a direct handler with no 404 check, answers a 404
with the error list HTTP 404 instead of an empty one — both in isolation and
in a full cycle against a cloud whose every endpoint returns 404. -/
theorem C4_counterexample_products_404_is_recorded_as_error :
    ("products", HandlerKind.direct) ∈ pullPlan ∧
    runHandler HandlerKind.direct "products" { status := 404, items := 0 } 1 [] =
      Except.ok ({ entity := "products", pulled := 0, errors := ["HTTP 404"] }, []) ∧
    (outcomeOf "products"
        (runFullSync (fun _ => { status := 404, items := 0 }) 1 []).1).map
      (fun r => r.errors) = some ["HTTP 404"] := by
  refine ⟨by decide, rfl, by rfl⟩

/-- C4 amended: an HTTP 404 yields a per-entity outcome with zero records
pulled for every handler of the plan, and the cycle always continues through
the whole plan; handlers built on fetchAndTransform and handlers with an
explicit 404 check report an empty error list, while the direct handlers
without a 404 check (products, discount_templates, gift_cards, coupon_codes,
deals, users, location_settings, floors, areas, tables, courses) record
HTTP 404 in their error list, and the per-terminal handler records one error
per registered terminal. -/
theorem C4_pull_404_pulls_zero_and_cycle_continues
    (resp : String → PullResp) (terminals : Nat) (sync : List (String × SyncRow)) :
    (∀ name kind, (name, kind) ∈ pullPlan → (resp name).status = 404 →
      ∃ out s2, runHandler kind name (resp name) terminals sync = Except.ok (out, s2) ∧
        out.entity = name ∧ out.pulled = 0 ∧
        ((kind = HandlerKind.fetchBased ∨ kind = HandlerKind.directWith404 ∨
            kind = HandlerKind.cheesePrices) → out.errors = []) ∧
        ((kind = HandlerKind.direct ∨ kind = HandlerKind.singleSettings) →
          out.errors = [httpErrText 404]) ∧
        (kind = HandlerKind.perTerminal →
          out.errors = List.replicate terminals ("Terminal: " ++ httpErrText 404))) ∧
    (∀ rs : String → PullResp, (runFullSync rs terminals sync).1.length = pullPlan.length) := by
  constructor
  · intro name kind _ h404
    have hok : pullOk (resp name) = false := pullOk_404 _ h404
    cases kind with
    | fetchBased =>
        refine ⟨{ entity := name, pulled := 0, errors := [] },
          updateSyncState name 0 sync, ?_, rfl, rfl, fun _ => rfl,
          fun h => absurd h (by decide), fun h => absurd h (by decide)⟩
        simp [runHandler, hok, h404]
    | direct =>
        refine ⟨{ entity := name, pulled := 0, errors := [httpErrText 404] },
          sync, ?_, rfl, rfl, fun h => absurd h (by decide),
          fun _ => rfl, fun h => absurd h (by decide)⟩
        simp [runHandler, hok, h404]
    | directWith404 =>
        refine ⟨{ entity := name, pulled := 0, errors := [] },
          sync, ?_, rfl, rfl, fun _ => rfl,
          fun h => absurd h (by decide), fun h => absurd h (by decide)⟩
        simp [runHandler, hok, h404]
    | cheesePrices =>
        refine ⟨{ entity := name, pulled := 0, errors := [] },
          sync, ?_, rfl, rfl, fun _ => rfl,
          fun h => absurd h (by decide), fun h => absurd h (by decide)⟩
        simp [runHandler, hok, h404]
    | singleSettings =>
        refine ⟨{ entity := name, pulled := 0, errors := [httpErrText 404] },
          sync, ?_, rfl, rfl, fun h => absurd h (by decide),
          fun _ => rfl, fun h => absurd h (by decide)⟩
        simp [runHandler, hok, h404]
    | perTerminal =>
        by_cases ht : terminals = 0
        · refine ⟨{ entity := name, pulled := 0, errors := [] },
            sync, ?_, rfl, rfl, fun h => absurd h (by decide),
            fun h => absurd h (by decide), fun _ => by simp [ht]⟩
          simp [runHandler, ht]
        · refine ⟨{ entity := name,
                    pulled := 0,
                    errors := List.replicate terminals ("Terminal: " ++ httpErrText 404) },
            updateSyncState name 0 sync, ?_, rfl, rfl,
            fun h => absurd h (by decide), fun h => absurd h (by decide),
            fun _ => rfl⟩
          simp [runHandler, hok, ht, h404]
  · intro rs
    unfold runFullSync runPlan
    rw [runPlan_length]
    simp

/-- Witness for C4 amended: the categories handler (fetch-based) answers a
404 cycle with zero pulled and no error, and a cycle against an all-404
cloud still yields one outcome for each of the 53 plan entities. -/
theorem C4_witness :
    (∃ out s2, runHandler HandlerKind.fetchBased "categories"
        ((fun _ => ({ status := 404, items := 0 } : PullResp)) "categories") 1 [] =
        Except.ok (out, s2) ∧
      out.entity = "categories" ∧ out.pulled = 0 ∧ out.errors = []) ∧
    (runFullSync (fun _ => { status := 404, items := 0 }) 1 []).1.length =
      pullPlan.length := by
  have h := C4_pull_404_pulls_zero_and_cycle_continues
    (fun _ => { status := 404, items := 0 }) 1 []
  obtain ⟨out, s2, heq, hent, hpull, hempty, _, _⟩ :=
    h.1 "categories" HandlerKind.fetchBased (by decide) rfl
  exact ⟨⟨out, s2, heq, hent, hpull, hempty (Or.inl rfl)⟩,
    h.2 (fun _ => { status := 404, items := 0 })⟩

set_option maxRecDepth 8000 in
/-- C5: evaluation of the failing input for the pizza-cheese-prices code bug.
In a cycle where the cloud answers 500 for exactly one entity (categories)
and 200 with one record for every other endpoint, the failing entity records
its error and the cycle continues (customers, for example, completes with no
error and sync_state SUCCESS) — but pizza_cheese_prices, whose handler ends
in updateSyncState("pizza_cheese_prices", count) with no variable count in
scope, throws a ReferenceError on its 2xx response, records
count is not defined, and never reaches sync_state SUCCESS, contradicting
the claim that every entity other than the failing one ends with
status SUCCESS. -/
theorem C5_cheese_prices_bug_defeats_full_fault_isolation :
    (outcomeOf "categories"
        (runFullSync (fun n => if n = "categories" then { status := 500, items := 0 }
          else { status := 200, items := 1 }) 1 []).1).map (fun r => r.errors) =
      some ["HTTP 500"] ∧
    (outcomeOf "customers"
        (runFullSync (fun n => if n = "categories" then { status := 500, items := 0 }
          else { status := 200, items := 1 }) 1 []).1).map (fun r => r.errors) =
      some [] ∧
    syncStatusOf "customers"
        (runFullSync (fun n => if n = "categories" then { status := 500, items := 0 }
          else { status := 200, items := 1 }) 1 []).2 = some "SUCCESS" ∧
    syncStatusOf "products"
        (runFullSync (fun n => if n = "categories" then { status := 500, items := 0 }
          else { status := 200, items := 1 }) 1 []).2 = some "SUCCESS" ∧
    (outcomeOf "pizza_cheese_prices"
        (runFullSync (fun n => if n = "categories" then { status := 500, items := 0 }
          else { status := 200, items := 1 }) 1 []).1).map (fun r => r.errors) =
      some ["count is not defined"] ∧
    syncStatusOf "pizza_cheese_prices"
        (runFullSync (fun n => if n = "categories" then { status := 500, items := 0 }
          else { status := 200, items := 1 }) 1 []).2 = none ∧
    (runFullSync (fun n => if n = "categories" then { status := 500, items := 0 }
        else { status := 200, items := 1 }) 1 []).1.length = pullPlan.length := by
  refine ⟨by rfl, by rfl, by rfl, by rfl, by rfl, by rfl, by rfl⟩

end Alba365
